import Mathlib

/-!
# Verification of gpsd's subframe decoder (`subframe.c`) and client protocol
# unpacker (`libgps.c`)

This file is a shallow embedding, in Lean 4, of the two protocol-decoding
components of the repository:

* `gpsd_interpret_subframe_raw` / `gpsd_interpret_subframe` from
  `src/subframe.c` — decoding of 10-word GPS navigation subframes, with
  preamble/polarity correction, per-word parity checking, and updates to the
  shared receiver time context (GPS week number, leap seconds);
* `gps_unpack` from `src/libgps.c` — parsing of the textual, tag-delimited
  daemon protocol into a client session state record, producing a change
  bitmask.

C `unsigned int` values are modelled as `Nat` (all bit operations used by the
source mask their operands to at most 32 bits, so no overflow arises);
C `int` values as `Int`; C `double` values as `ℚ` (the numeric parsing in the
source is plain decimal text, exactly representable); C strings as
`List Char` with an implicit NUL terminator (reading past the end of the
modelled buffer yields `'\x00'`).

Constants that the source takes from headers not present in `src/`
(`gpsd.h`, `gps.h`, `timebase.h`) are modelled explicitly and documented at
their definitions; the build-time `LEAP_SECONDS` constant is kept as an
explicit parameter of the decoder so that nothing about its value is assumed.
-/

/- ## Part 1: the subframe decoder (`src/subframe.c`) -/

/-- The receiver time context (the fields of `struct gps_context_t` that
`subframe.c` reads and writes through `session->context`): current GPS week
number, current leap-second count, and the validity flag word. -/
structure GpsContext where
  gps_week : Nat
  leap_seconds : Int
  valid : Nat
deriving DecidableEq, Repr

/-- Modelled from the spec: the `LEAP_SECOND_VALID` flag bit of the context's
validity word ("a validity flag set for leap second known").  The numeric
value of the bit comes from `gps.h`, which is not under `src/`; any fixed
power of two works, and `1` is used here. -/
def LEAP_SECOND_VALID : Nat := 1

/-- 32-bit all-ones mask, used to model the C bitwise complement `~x`
on a 32-bit flag word: `x &&& (0xffffffff ^^^ m)` models `x & ~m`. -/
def MASK32 : Nat := 0xffffffff

/-- Parity (XOR-fold) of the binary digits of a natural number, with
structural fuel so that kernel evaluation terminates quickly.  34 bits of
fuel cover every 32-bit word. -/
def bitParityAux : Nat → Nat → Bool
  | 0, _ => false
  | f + 1, n => if n = 0 then false else xor (n % 2 = 1) (bitParityAux f (n / 2))

/-- Parity of the bits of a word (true iff an odd number of bits are set). -/
def bitParity (n : Nat) : Bool := bitParityAux 34 n

/-- Modelled from the spec: `isgps_parity`, "the standard GPS parity
algorithm (external collaborator: parity function over a 30-bit word)".
The function itself lives in `isgps.c`, which is not under `src/`.  The
standard algorithm (IS-GPS-200, the Hamming (32,26) code) computes each of
the six parity bits D25..D30 as the XOR of D29* or D30* (bits 31/30 of the
word) with a fixed subset of the 24 data bits (bits 29..6); the six masks
below encode exactly those subsets.  The result is the 6-bit parity value
with D25 as the most significant bit, to be compared against the word's low
6 bits.  Note every mask has its low 6 bits clear: the recomputed parity
never depends on the transmitted parity bits themselves. -/
def isgps_parity (w : Nat) : Nat :=
  32 * (bitParity (w &&& 0xbb1f3480)).toNat +
  16 * (bitParity (w &&& 0x5d8f9a40)).toNat +
  8 * (bitParity (w &&& 0xaec7cd00)).toNat +
  4 * (bitParity (w &&& 0x5763e680)).toNat +
  2 * (bitParity (w &&& 0x6bb1f340)).toNat +
  (bitParity (w &&& 0x8b7a89c0)).toNat

/-- `gpsd_interpret_subframe` (src/subframe.c:86-378), the decoder for a
subframe whose parity bits have already been stripped (each word holds 24
data bits; an inverted word 0 is still accepted).  Only the receiver time
context is mutated by the source; everything else the function extracts is
passed to `gpsd_report` diagnostics only, so the model returns the updated
context.  `LS` is the build-time `LEAP_SECONDS` constant from `timebase.h`
(not under `src/`), kept as an explicit parameter.  The subframe-2, -3 and
-5 cases and the subframe-4 pages other than 56 only extract fields for
diagnostic logging and leave the context unchanged, exactly as the source
does. -/
def gpsd_interpret_subframe (LS : Nat) (ctx : GpsContext) (svid : Nat)
    (words : Fin 10 → Nat) : GpsContext :=
  let preamble0 := (words 0 >>> 16) &&& 0xff
  -- src:113-116: an inverted word 0 is corrected (`preamble ^= 0xff`;
  -- the accompanying `words[0] ^= 0xffffff` only feeds diagnostics below)
  let preamble := if preamble0 = 0x8b then preamble0 ^^^ 0xff else preamble0
  if preamble ≠ 0x74 then ctx   -- src:117-122: bad preamble, return
  else
    let subframe := (words 1 >>> 2) &&& 0x07          -- src:125
    let pageid := (words 2 &&& 0x3F0000) >>> 16       -- src:136
    if subframe = 1 then
      -- src:156-157: store the 10-bit transmitted week number directly
      { ctx with gps_week := (words 2 >>> 14) &&& 0x03ff }
    else if subframe = 4 then
      if pageid = 56 then
        -- src:315-342: leap-second data
        let leap := (words 8 &&& 0xff0000) >>> 16
        if LS > leap then
          -- src:326-331: "something wrong": substitute the build-time
          -- constant and clear the validity flag
          { ctx with leap_seconds := (LS : Int),
                     valid := ctx.valid &&& (MASK32 ^^^ LEAP_SECOND_VALID) }
        else
          -- src:332-340: adopt the decoded value, set the validity flag
          { ctx with leap_seconds := (leap : Int),
                     valid := ctx.valid ||| LEAP_SECOND_VALID }
      else ctx
    else ctx

/-- Outcome of `gpsd_interpret_subframe_raw`, distinguishing the three exits
of the source (src:60 bad preamble, src:77 parity failure on word `i`,
src:83 successful fall-through to `gpsd_interpret_subframe`).  The source
reports the distinction only through `gpsd_report` diagnostics; its C return
value is the separate `ret` field of `RawResult`. -/
inductive RawOutcome where
  | ok
  | badPreamble
  | parityError (i : Nat)
deriving DecidableEq, Repr

/-- Result of `gpsd_interpret_subframe_raw`: the updated context, the
diagnostic outcome, and the C `int` return value. -/
structure RawResult where
  ctx : GpsContext
  outcome : RawOutcome
  ret : Int
deriving DecidableEq, Repr

/-- src:67-71: D30* (bit 30) set means the word arrived inverted; the source
then complements the 24 data bits (`words[i] ^= 0x3fffffc0`). -/
def wordCorrect (w : Nat) : Nat :=
  if w &&& 0x40000000 ≠ 0 then w ^^^ 0x3fffffc0 else w

/-- src:62 and src:79: discard the 6 parity bits, keep the 24 data bits. -/
def wordData (w : Nat) : Nat := (w >>> 6) &&& 0xffffff

/-- The parity check the source applies to (inversion-corrected) words 1-9
(src:72-73): the recomputed parity must equal the transmitted low 6 bits. -/
def parityOK (w : Nat) : Prop :=
  isgps_parity (wordCorrect w) = wordCorrect w &&& 0x3f

instance (w : Nat) : Decidable (parityOK w) := by
  unfold parityOK; infer_instance

/-- The loop of src:64-80 over words 1..9: correct polarity, check parity
(returning the failing index as an error), and strip parity bits. -/
def rawCheck : List (Fin 10) → (Fin 10 → Nat) → Except (Fin 10) (Fin 10 → Nat)
  | [], ws => .ok ws
  | i :: is, ws =>
    let w := wordCorrect (ws i)
    if isgps_parity w = w &&& 0x3f then
      rawCheck is (Function.update ws i (wordData w))
    else
      .error i

/-- Shared tail of `gpsd_interpret_subframe_raw` after the word-0 preamble
handling: `w0` is word 0 after any inversion correction. -/
def rawBody (LS : Nat) (ctx : GpsContext) (svid : Nat) (words : Fin 10 → Nat)
    (w0 : Nat) : RawResult :=
  let ws := Function.update words 0 (wordData w0)
  match rawCheck [1, 2, 3, 4, 5, 6, 7, 8, 9] ws with
  | .error i => { ctx := ctx, outcome := .parityError i.val, ret := 0 }
  | .ok ws2 =>
    { ctx := gpsd_interpret_subframe LS ctx svid ws2, outcome := .ok, ret := 0 }

/-- `gpsd_interpret_subframe_raw` (src/subframe.c:23-84): check word 0 for
the (possibly inverted) preamble, correct and parity-check words 1-9, strip
parity bits, and hand the data words to `gpsd_interpret_subframe`.  The
C function returns `int`; the model also records the diagnostic outcome. -/
def gpsd_interpret_subframe_raw (LS : Nat) (ctx : GpsContext) (svid : Nat)
    (words : Fin 10 → Nat) : RawResult :=
  let preamble := (words 0 >>> 22) &&& 0xff
  if preamble = 0x8b then
    -- src:53-54: preamble is inverted; invert word 0's data bits back
    rawBody LS ctx svid words (words 0 ^^^ 0x3fffffc0)
  else if preamble ≠ 0x74 then
    -- src:55-61: bad preamble
    { ctx := ctx, outcome := .badPreamble, ret := 0 }
  else
    rawBody LS ctx svid words (words 0)

/- ## Bitwise helper lemmas -/

theorem shiftRight_xor_distrib (a c n : Nat) :
    (a ^^^ c) >>> n = a >>> n ^^^ c >>> n := by
  apply Nat.eq_of_testBit_eq
  intro i
  simp [Nat.testBit_shiftRight, Nat.testBit_xor]

theorem two_pow_and_eq_zero {b m : Nat} (hb : b < 6) (hm : m &&& 0x3f = 0) :
    2 ^ b &&& m = 0 := by
  apply Nat.eq_of_testBit_eq
  intro i
  simp only [Nat.testBit_and, Nat.testBit_two_pow, Nat.zero_testBit]
  by_cases hib : b = i
  · subst hib
    have h1 : m.testBit b = false := by
      have h2 := congrArg (fun x => x.testBit b) hm
      simp only [Nat.testBit_and, Nat.zero_testBit] at h2
      have h63 : (0x3f : Nat).testBit b = true := by
        interval_cases b <;> decide
      rw [h63] at h2
      simpa using h2
    simp [h1]
  · simp [hib]

theorem xor_low_bit_and {w b m : Nat} (hb : b < 6) (hm : m &&& 0x3f = 0) :
    (w ^^^ 2 ^ b) &&& m = w &&& m := by
  rw [Nat.and_xor_distrib_right, two_pow_and_eq_zero hb hm, Nat.xor_zero]

theorem xor_low_bit_low6 {w b : Nat} (hb : b < 6) :
    (w ^^^ 2 ^ b) &&& 0x3f = (w &&& 0x3f) ^^^ 2 ^ b := by
  rw [Nat.and_xor_distrib_right]
  have h : (2 ^ b) &&& 0x3f = 2 ^ b := by interval_cases b <;> decide
  rw [h]

theorem xor_eq_self_iff {x c : Nat} (h : x = x ^^^ c) : c = 0 := by
  have h2 : x ^^^ x = x ^^^ (x ^^^ c) := by rw [← h]
  rwa [Nat.xor_self, ← Nat.xor_assoc, Nat.xor_self, Nat.zero_xor, eq_comm] at h2

/-- Correcting inversion commutes with flipping one of the low 6 bits
(the inversion test reads bit 30 and the inversion XOR mask `0x3fffffc0`
has its low 6 bits clear). -/
theorem wordCorrect_xor_low {w b : Nat} (hb : b < 6) :
    wordCorrect (w ^^^ 2 ^ b) = wordCorrect w ^^^ 2 ^ b := by
  unfold wordCorrect
  rw [xor_low_bit_and hb (by decide)]
  by_cases h : w &&& 0x40000000 ≠ 0
  · rw [if_pos h, if_pos h, Nat.xor_assoc, Nat.xor_comm (2 ^ b) 0x3fffffc0,
      ← Nat.xor_assoc]
  · rw [if_neg h, if_neg h]

/-- The recomputed parity ignores the low 6 bits of the word: all six
parity masks have their low 6 bits clear. -/
theorem isgps_parity_xor_low {w b : Nat} (hb : b < 6) :
    isgps_parity (w ^^^ 2 ^ b) = isgps_parity w := by
  unfold isgps_parity
  rw [xor_low_bit_and hb (by decide), xor_low_bit_and hb (by decide),
    xor_low_bit_and hb (by decide), xor_low_bit_and hb (by decide),
    xor_low_bit_and hb (by decide), xor_low_bit_and hb (by decide)]

/-- Flipping one of the 6 parity bits of a word that passed the parity
check makes the check fail. -/
theorem parityOK_xor_low_fails {w b : Nat} (hb : b < 6) (h : parityOK w) :
    ¬ parityOK (w ^^^ 2 ^ b) := by
  unfold parityOK at h ⊢
  rw [wordCorrect_xor_low hb, isgps_parity_xor_low hb,
    xor_low_bit_low6 hb]
  intro h2
  rw [h] at h2
  have h3 := xor_eq_self_iff h2
  have h4 : 0 < 2 ^ b := Nat.pos_pow_of_pos b (by norm_num)
  omega

/- ## Lemmas about the word 1-9 parity loop -/

theorem rawCheck_all_ok (is : List (Fin 10)) : ∀ (ws : Fin 10 → Nat),
    is.Nodup → (∀ j ∈ is, parityOK (ws j)) →
    ∃ ws2, rawCheck is ws = .ok ws2 := by
  induction is with
  | nil => intro ws _ _; exact ⟨ws, rfl⟩
  | cons i is ih =>
    intro ws hnd hall
    simp only [rawCheck]
    rw [if_pos (show isgps_parity (wordCorrect (ws i)) = wordCorrect (ws i) &&& 0x3f
      from hall i (List.mem_cons_self i is))]
    refine ih _ (List.nodup_cons.mp hnd).2 (fun j hj => ?_)
    rw [Function.update_noteq (fun he => (List.nodup_cons.mp hnd).1 (by rwa [he] at hj))]
    exact hall j (List.mem_cons_of_mem i hj)

theorem rawCheck_first_bad (is : List (Fin 10)) : ∀ (ws : Fin 10 → Nat) (i : Fin 10),
    is.Nodup → i ∈ is → (∀ j ∈ is, j ≠ i → parityOK (ws j)) → ¬ parityOK (ws i) →
    rawCheck is ws = .error i := by
  induction is with
  | nil => intro ws i _ h; cases h
  | cons k is ih =>
    intro ws i hnd hmem hall hbad
    by_cases hik : i = k
    · subst hik
      simp only [rawCheck]
      rw [if_neg (show ¬ isgps_parity (wordCorrect (ws i)) = wordCorrect (ws i) &&& 0x3f
        from hbad)]
    · simp only [rawCheck]
      rw [if_pos (show isgps_parity (wordCorrect (ws k)) = wordCorrect (ws k) &&& 0x3f
        from hall k (List.mem_cons_self k is) (fun h => hik h.symm))]
      have hmem2 : i ∈ is := by
        rcases List.mem_cons.mp hmem with h | h
        · exact absurd h hik
        · exact h
      refine ih _ i (List.nodup_cons.mp hnd).2 hmem2 (fun j hj hji => ?_) ?_
      · rw [Function.update_noteq (fun he => (List.nodup_cons.mp hnd).1 (by rwa [he] at hj))]
        exact hall j (List.mem_cons_of_mem k hj) hji
      · rw [Function.update_noteq hik]
        exact hbad

/-- Every index in the word 1-9 list is nonzero. -/
theorem mem_loopList (j : Fin 10) (hj : j ∈ ([1, 2, 3, 4, 5, 6, 7, 8, 9] : List (Fin 10))) :
    0 < j.val ∧ j ≠ 0 := by
  revert j
  decide

theorem mem_loopList_of_pos (i : Fin 10) (hi : 0 < i.val) :
    i ∈ ([1, 2, 3, 4, 5, 6, 7, 8, 9] : List (Fin 10)) := by
  revert i
  decide

/-- With all of words 1-9 passing the parity check, the word loop succeeds
and the raw decoder reports success. -/
theorem rawBody_outcome_ok (LS : Nat) (ctx : GpsContext) (svid : Nat)
    (words : Fin 10 → Nat) (w0 : Nat)
    (hall : ∀ i : Fin 10, 0 < i.val → parityOK (words i)) :
    (rawBody LS ctx svid words w0).outcome = .ok := by
  simp only [rawBody]
  obtain ⟨ws2, hws2⟩ := rawCheck_all_ok [1, 2, 3, 4, 5, 6, 7, 8, 9]
    (Function.update words 0 (wordData w0)) (by decide) (fun j hj => by
      obtain ⟨h1, h2⟩ := mem_loopList j hj
      rw [Function.update_noteq h2]
      exact hall j h1)
  rw [hws2]

/-- Flipping parity bit `b` of word `i` (1-9) of an otherwise
parity-correct subframe makes the word loop fail exactly at `i`. -/
theorem rawBody_outcome_flip (LS : Nat) (ctx : GpsContext) (svid : Nat)
    (words : Fin 10 → Nat) (w0 : Nat) (i : Fin 10) (b : Nat)
    (hi : 0 < i.val) (hb : b < 6)
    (hall : ∀ j : Fin 10, 0 < j.val → parityOK (words j)) :
    (rawBody LS ctx svid (Function.update words i (words i ^^^ 2 ^ b)) w0).outcome
      = .parityError i.val := by
  simp only [rawBody]
  have hi0 : i ≠ (0 : Fin 10) := by
    intro he
    rw [he] at hi
    exact absurd hi (by decide)
  have herr := rawCheck_first_bad [1, 2, 3, 4, 5, 6, 7, 8, 9]
    (Function.update (Function.update words i (words i ^^^ 2 ^ b)) 0 (wordData w0)) i
    (by decide) (mem_loopList_of_pos i hi)
    (fun j hj hji => by
      obtain ⟨h1, h2⟩ := mem_loopList j hj
      rw [Function.update_noteq h2, Function.update_noteq hji]
      exact hall j h1)
    (by
      rw [Function.update_noteq hi0, Function.update_same]
      exact parityOK_xor_low_fails hb (hall i hi))
  rw [herr]

/-- With a valid (canonical or inverted) preamble on word 0, the raw decoder
reaches the word loop, with word 0 corrected when inverted. -/
theorem raw_eq_rawBody (LS : Nat) (ctx : GpsContext) (svid : Nat)
    (words : Fin 10 → Nat)
    (hp : (words 0 >>> 22) &&& 0xff = 0x74 ∨ (words 0 >>> 22) &&& 0xff = 0x8b) :
    gpsd_interpret_subframe_raw LS ctx svid words
      = rawBody LS ctx svid words
          (if (words 0 >>> 22) &&& 0xff = 0x8b then words 0 ^^^ 0x3fffffc0
           else words 0) := by
  simp only [gpsd_interpret_subframe_raw]
  rcases hp with h | h <;> rw [h] <;> norm_num

/-- C4: for every 10-word subframe with a valid preamble, if every
(inversion-corrected) word 1-9 passes the parity check the decoder never
reports a parity error (it reports success), and flipping any single parity
bit of any one of words 1-9 (data bits intact) makes decoding fail with a
parity error naming that word's index. -/
theorem decode_raw_parity (LS : Nat) (ctx : GpsContext) (svid : Nat)
    (words : Fin 10 → Nat)
    (hp : (words 0 >>> 22) &&& 0xff = 0x74 ∨ (words 0 >>> 22) &&& 0xff = 0x8b)
    (hall : ∀ i : Fin 10, 0 < i.val → parityOK (words i)) :
    (gpsd_interpret_subframe_raw LS ctx svid words).outcome = .ok ∧
    ∀ (i : Fin 10) (b : Nat), 0 < i.val → b < 6 →
      (gpsd_interpret_subframe_raw LS ctx svid
        (Function.update words i (words i ^^^ 2 ^ b))).outcome
        = .parityError i.val := by
  constructor
  · rw [raw_eq_rawBody LS ctx svid words hp]
    exact rawBody_outcome_ok LS ctx svid words _ hall
  · intro i b hi hb
    have hi0 : (0 : Fin 10) ≠ i := by
      intro he
      rw [← he] at hi
      exact absurd hi (by decide)
    have hp2 : ((Function.update words i (words i ^^^ 2 ^ b)) 0 >>> 22) &&& 0xff = 0x74 ∨
        ((Function.update words i (words i ^^^ 2 ^ b)) 0 >>> 22) &&& 0xff = 0x8b := by
      rw [Function.update_noteq hi0]
      exact hp
    rw [raw_eq_rawBody LS ctx svid _ hp2]
    rw [Function.update_noteq hi0]
    exact rawBody_outcome_flip LS ctx svid words _ i b hi hb hall

theorem rawBody_ret_zero (LS : Nat) (ctx : GpsContext) (svid : Nat)
    (words : Fin 10 → Nat) (w0 : Nat) :
    (rawBody LS ctx svid words w0).ret = 0 := by
  simp only [rawBody]
  rcases h : rawCheck [1, 2, 3, 4, 5, 6, 7, 8, 9] (Function.update words 0 (wordData w0))
    with i | ws2 <;> rfl

/-- C10: the C return value of `gpsd_interpret_subframe_raw` is 0 on every
input — after a successful decode, after a preamble rejection, and after a
parity rejection alike — so a caller cannot distinguish the outcomes from
the return value. -/
theorem decode_raw_ret_always_zero (LS : Nat) (ctx : GpsContext) (svid : Nat)
    (words : Fin 10 → Nat) :
    (gpsd_interpret_subframe_raw LS ctx svid words).ret = 0 := by
  simp only [gpsd_interpret_subframe_raw]
  split_ifs
  · exact rawBody_ret_zero LS ctx svid words _
  · rfl
  · exact rawBody_ret_zero LS ctx svid words _

/-- C7: decoding a valid subframe 1 stores the 10-bit transmitted week
number (bits 14-23 of data word 2) directly into the context's GPS week
number, with no validation beyond the 10-bit mask; nothing else in the
context changes. -/
theorem subframe1_week_direct (LS : Nat) (ctx : GpsContext) (svid : Nat)
    (words : Fin 10 → Nat)
    (hp : (words 0 >>> 16) &&& 0xff = 0x74 ∨ (words 0 >>> 16) &&& 0xff = 0x8b)
    (hsf : (words 1 >>> 2) &&& 0x07 = 1) :
    gpsd_interpret_subframe LS ctx svid words
      = { ctx with gps_week := (words 2 >>> 14) &&& 0x03ff } := by
  simp only [gpsd_interpret_subframe]
  rcases hp with h | h <;> rw [h, hsf] <;> norm_num
  exact fun hx => absurd (by decide) hx

/-- C1 (amended): the leap-second sanity comparison in the subframe-4
page-56 path is against the build-time `LEAP_SECONDS` constant `LS`, not
against the context's previously stored count.  A decoded value below `LS`
is replaced by `LS` itself (whatever the context previously held) with the
validity flag cleared; a decoded value at or above `LS` is adopted and the
validity flag set, even when it is smaller than the context's previous
count. -/
theorem leap56_policy (LS : Nat) (ctx : GpsContext) (svid : Nat)
    (words : Fin 10 → Nat)
    (hp : (words 0 >>> 16) &&& 0xff = 0x74 ∨ (words 0 >>> 16) &&& 0xff = 0x8b)
    (hsf : (words 1 >>> 2) &&& 0x07 = 4)
    (hpg : (words 2 &&& 0x3F0000) >>> 16 = 56) :
    ((words 8 &&& 0xff0000) >>> 16 < LS →
      (gpsd_interpret_subframe LS ctx svid words).leap_seconds = (LS : Int) ∧
      (gpsd_interpret_subframe LS ctx svid words).valid &&& LEAP_SECOND_VALID = 0) ∧
    (LS ≤ (words 8 &&& 0xff0000) >>> 16 →
      (gpsd_interpret_subframe LS ctx svid words).leap_seconds
          = (((words 8 &&& 0xff0000) >>> 16 : Nat) : Int) ∧
      (gpsd_interpret_subframe LS ctx svid words).valid &&& LEAP_SECOND_VALID ≠ 0) := by
  have hbody : gpsd_interpret_subframe LS ctx svid words
      = if LS > (words 8 &&& 0xff0000) >>> 16 then
          { ctx with leap_seconds := (LS : Int),
                     valid := ctx.valid &&& (MASK32 ^^^ LEAP_SECOND_VALID) }
        else
          { ctx with leap_seconds := (((words 8 &&& 0xff0000) >>> 16 : Nat) : Int),
                     valid := ctx.valid ||| LEAP_SECOND_VALID } := by
    simp only [gpsd_interpret_subframe]
    rcases hp with h | h <;> rw [h, hsf, hpg] <;> norm_num
    exact fun hx => absurd (by decide) hx
  constructor
  · intro hlt
    rw [hbody, if_pos hlt]
    refine ⟨rfl, ?_⟩
    show (ctx.valid &&& (MASK32 ^^^ LEAP_SECOND_VALID)) &&& LEAP_SECOND_VALID = 0
    rw [Nat.and_assoc]
    norm_num [MASK32, LEAP_SECOND_VALID]
  · intro hge
    rw [hbody, if_neg (by omega)]
    refine ⟨rfl, ?_⟩
    show (ctx.valid ||| LEAP_SECOND_VALID) &&& LEAP_SECOND_VALID ≠ 0
    intro hz
    have h0 := congrArg (fun x => x.testBit 0) hz
    simp [Nat.testBit_or, Nat.testBit_and, LEAP_SECOND_VALID] at h0

theorem wordData_xor_3f (a : Nat) : wordData (a ^^^ 0x3f) = wordData a := by
  unfold wordData
  rw [shiftRight_xor_distrib, (by decide : (0x3f : Nat) >>> 6 = 0), Nat.xor_zero]

theorem preamble_of_complement {w : Nat} (hp : (w >>> 22) &&& 0xff = 0x74) :
    ((w ^^^ 0x3fffffff) >>> 22) &&& 0xff = 0x8b := by
  rw [shiftRight_xor_distrib, Nat.and_xor_distrib_right, hp]
  decide

theorem rawBody_congr (LS : Nat) (ctx : GpsContext) (svid : Nat)
    (w1 w2 : Fin 10 → Nat) (a b : Nat)
    (h : Function.update w1 0 (wordData a) = Function.update w2 0 (wordData b)) :
    rawBody LS ctx svid w1 a = rawBody LS ctx svid w2 b := by
  simp only [rawBody]
  rw [h]

/-- C8: presenting word 0 with its 30 used bits complemented (the
inverted-preamble form) decodes to exactly the same result — same context
updates, same outcome, same return value — as the non-inverted form. -/
theorem decode_raw_inverted_word0 (LS : Nat) (ctx : GpsContext) (svid : Nat)
    (words : Fin 10 → Nat)
    (hp : (words 0 >>> 22) &&& 0xff = 0x74) :
    gpsd_interpret_subframe_raw LS ctx svid
        (Function.update words 0 (words 0 ^^^ 0x3fffffff))
      = gpsd_interpret_subframe_raw LS ctx svid words := by
  have h0 : Function.update words 0 (words 0 ^^^ 0x3fffffff) 0
      = words 0 ^^^ 0x3fffffff := Function.update_same 0 _ words
  have hinv : ((Function.update words 0 (words 0 ^^^ 0x3fffffff)) 0 >>> 22) &&& 0xff
      = 0x8b := by
    rw [h0]
    exact preamble_of_complement hp
  simp only [gpsd_interpret_subframe_raw]
  rw [if_pos hinv, hp]
  norm_num
  apply rawBody_congr
  rw [Function.update_idem]
  have hxor : (words 0 ^^^ 0x3fffffff) ^^^ 0x3fffffc0 = words 0 ^^^ 0x3f := by
    rw [Nat.xor_assoc, (by decide : (0x3fffffff : Nat) ^^^ 0x3fffffc0 = 0x3f)]
  rw [hxor, wordData_xor_3f]

/- ## Concrete subframe inputs for counterexamples and witnesses -/

/-- A concrete subframe-4 page-56 word array (24-bit data words, canonical
preamble in word 0, subframe id 4 in word 1, page id 56 in word 2, current
leap seconds 16 and future leap seconds 16 in words 8/9). -/
def wordsLeap16 : Fin 10 → Nat :=
  ![0x740000, 0x10, 0x380000, 0, 0, 0, 0, 0, 0x100000, 0x100000]

/-- The same subframe with the current-leap-seconds byte equal to 14. -/
def wordsLeap14 : Fin 10 → Nat :=
  ![0x740000, 0x10, 0x380000, 0, 0, 0, 0, 0, 0xe0000, 0x100000]

/-- A concrete raw subframe: word 0 carries the canonical preamble 0x74 in
bits 22-29, and words 1-9 are all zero (whose recomputed parity, 0, matches
their transmitted parity bits). -/
def wordsRawOK : Fin 10 → Nat :=
  ![0x1d000000, 0, 0, 0, 0, 0, 0, 0, 0, 0]

/-- A concrete subframe-1 word array: canonical preamble, subframe id 1,
and week-number bits 0x100 (256) in word 2. -/
def wordsWeek256 : Fin 10 → Nat :=
  ![0x740000, 4, 0x400000, 0, 0, 0, 0, 0, 0, 0]

/-- C1 counterexample: with build-time constant 15 and a context already
holding 17 leap seconds with the validity flag set, decoding a page-56
subframe carrying 16 leap seconds — strictly below the stored count — does
not keep the stored value and does not clear the validity flag: the decoder
adopts 16 and sets the flag, because the source compares against the
build-time `LEAP_SECONDS` constant rather than the stored count. -/
theorem leap56_claim_counterexample :
    (((wordsLeap16 8 &&& 0xff0000) >>> 16 : Nat) : Int)
        < (GpsContext.mk 0 17 LEAP_SECOND_VALID).leap_seconds ∧
    (gpsd_interpret_subframe 15 (GpsContext.mk 0 17 LEAP_SECOND_VALID) 1
        wordsLeap16).leap_seconds ≠ 17 ∧
    (gpsd_interpret_subframe 15 (GpsContext.mk 0 17 LEAP_SECOND_VALID) 1
        wordsLeap16).valid &&& LEAP_SECOND_VALID ≠ 0 := by
  decide

/-- Witness for `leap56_policy` at a concrete input: leap byte 14 with
build-time constant 15. -/
theorem leap56_policy_witness :
    (((wordsLeap14 0 >>> 16) &&& 0xff = 0x74 ∨ (wordsLeap14 0 >>> 16) &&& 0xff = 0x8b) ∧
     (wordsLeap14 1 >>> 2) &&& 0x07 = 4 ∧
     (wordsLeap14 2 &&& 0x3F0000) >>> 16 = 56) ∧
    (((wordsLeap14 8 &&& 0xff0000) >>> 16 < 15 →
      (gpsd_interpret_subframe 15 (GpsContext.mk 0 17 LEAP_SECOND_VALID) 1
          wordsLeap14).leap_seconds = (15 : Int) ∧
      (gpsd_interpret_subframe 15 (GpsContext.mk 0 17 LEAP_SECOND_VALID) 1
          wordsLeap14).valid &&& LEAP_SECOND_VALID = 0) ∧
    (15 ≤ (wordsLeap14 8 &&& 0xff0000) >>> 16 →
      (gpsd_interpret_subframe 15 (GpsContext.mk 0 17 LEAP_SECOND_VALID) 1
          wordsLeap14).leap_seconds = (((wordsLeap14 8 &&& 0xff0000) >>> 16 : Nat) : Int) ∧
      (gpsd_interpret_subframe 15 (GpsContext.mk 0 17 LEAP_SECOND_VALID) 1
          wordsLeap14).valid &&& LEAP_SECOND_VALID ≠ 0)) :=
  ⟨⟨by decide, by decide, by decide⟩,
   leap56_policy 15 (GpsContext.mk 0 17 LEAP_SECOND_VALID) 1 wordsLeap14
     (by decide) (by decide) (by decide)⟩

/-- Witness for `decode_raw_parity` at a concrete input. -/
theorem decode_raw_parity_witness :
    (((wordsRawOK 0 >>> 22) &&& 0xff = 0x74 ∨ (wordsRawOK 0 >>> 22) &&& 0xff = 0x8b) ∧
     (∀ i : Fin 10, 0 < i.val → parityOK (wordsRawOK i))) ∧
    ((gpsd_interpret_subframe_raw 15 (GpsContext.mk 0 15 0) 1 wordsRawOK).outcome = .ok ∧
     ∀ (i : Fin 10) (b : Nat), 0 < i.val → b < 6 →
      (gpsd_interpret_subframe_raw 15 (GpsContext.mk 0 15 0) 1
        (Function.update wordsRawOK i (wordsRawOK i ^^^ 2 ^ b))).outcome
        = .parityError i.val) :=
  ⟨⟨by decide, by decide⟩,
   decode_raw_parity 15 (GpsContext.mk 0 15 0) 1 wordsRawOK (by decide) (by decide)⟩

/-- Witness for `subframe1_week_direct` at a concrete input: week-number
bits 0x100 decode to a stored week number of 256. -/
theorem subframe1_week_witness :
    (((wordsWeek256 0 >>> 16) &&& 0xff = 0x74 ∨ (wordsWeek256 0 >>> 16) &&& 0xff = 0x8b) ∧
     (wordsWeek256 1 >>> 2) &&& 0x07 = 1) ∧
    gpsd_interpret_subframe 15 (GpsContext.mk 0 15 0) 1 wordsWeek256
      = { GpsContext.mk 0 15 0 with gps_week := (wordsWeek256 2 >>> 14) &&& 0x03ff } ∧
    (wordsWeek256 2 >>> 14) &&& 0x03ff = 256 :=
  ⟨⟨by decide, by decide⟩,
   subframe1_week_direct 15 (GpsContext.mk 0 15 0) 1 wordsWeek256 (by decide) (by decide),
   by decide⟩

/-- Witness for `decode_raw_inverted_word0` at a concrete input. -/
theorem decode_raw_inverted_word0_witness :
    (wordsRawOK 0 >>> 22) &&& 0xff = 0x74 ∧
    gpsd_interpret_subframe_raw 15 (GpsContext.mk 0 15 0) 1
        (Function.update wordsRawOK 0 (wordsRawOK 0 ^^^ 0x3fffffff))
      = gpsd_interpret_subframe_raw 15 (GpsContext.mk 0 15 0) 1 wordsRawOK :=
  ⟨by decide, decode_raw_inverted_word0 15 (GpsContext.mk 0 15 0) 1 wordsRawOK (by decide)⟩

/- ## Part 2: the daemon protocol unpacker (`src/libgps.c`, `gps_unpack`) -/

/-- Modelled from the spec: the named change-bitmask bits ("integer with
named bit positions: altitude, position, track, status, mode, DOP, speed,
climb, online, satellites, position-error").  The numeric values come from
`gps.h`, which is not under `src/`; any distinct powers of two work. -/
def ONLINE_SET : Nat := 0x01

def LATLON_SET : Nat := 0x02

def ALTITUDE_SET : Nat := 0x04

def CLIMB_SET : Nat := 0x08

def TRACK_SET : Nat := 0x10

def SPEED_SET : Nat := 0x20

def STATUS_SET : Nat := 0x40

def MODE_SET : Nat := 0x80

def DOP_SET : Nat := 0x100

def SATELLITE_SET : Nat := 0x200

def POSERR_SET : Nat := 0x400

/-- Modelled from the spec: `MAXCHANNELS`, "a fixed maximum channel count"
for the satellite-in-view table.  The value comes from `gpsd.h`, which is
not under `src/`; 12 is used here (nothing below depends on the exact
value). -/
def MAXCHANNELS : Nat := 12

/-- The fix sub-record (`struct gps_fix_t` fields touched by
`gps_unpack`). C doubles are modelled as `ℚ`. -/
structure GpsFix where
  mode : Int
  time : ℚ
  latitude : ℚ
  longitude : ℚ
  altitude : ℚ
  eph : ℚ
  epv : ℚ
  track : ℚ
  speed : ℚ
  climb : ℚ
deriving Repr

/-- The client session state (`struct gps_data_t` fields touched by
`gps_unpack`, plus `online`, which this version of the source never
assigns, and the `raw_hook` registration).  The five satellite arrays are
fixed C arrays of `MAXCHANNELS` ints; they are modelled as total functions
`Nat → Int` so that the source's unbounded loop indices can be expressed
(writes the C program performs out of bounds are recorded separately by
the model as ghost data). -/
structure GpsData where
  online : ℚ
  fix : GpsFix
  status : Int
  satellites_used : Int
  pdop : ℚ
  hdop : ℚ
  vdop : ℚ
  epe : ℚ
  baudrate : Int
  stopbits : Int
  cycle : Int
  utc : List Char
  gps_id : Option (List Char)
  driver_mode : Int
  satellites : Int
  PRN : Nat → Int
  elevation : Nat → Int
  azimuth : Nat → Int
  ss : Nat → Int
  used : Nat → Int
  profiling : Int
  tag : List Char
  sentence_length : Int
  d_xmit_time : ℚ
  d_recv_time : ℚ
  d_decode_time : ℚ
  poll_time : ℚ
  emit_time : ℚ
  raw_hook : Bool

/- ### C string/stdio primitives over the modelled buffer

The C buffer is a NUL-terminated `char *` that `gps_unpack` mutates in
place.  It is modelled as a `List Char` holding the bytes up to (not
including) the terminating NUL; reading at or past the end yields `'\x00'`
(C would read the terminator there, or — only reachable for reads more than
one byte past a terminating CR — unspecified heap bytes, which no claim
exercises). -/

def bufGet (b : List Char) (i : Nat) : Char := b.getD i '\x00'

def bufSet (b : List Char) (i : Nat) (c : Char) : List Char := b.set i c

/-- C `isspace` in the default locale. -/
def isSpaceC (c : Char) : Bool :=
  c = ' ' || c = '\t' || c = '\n' || c = '\x0b' || c = '\x0c' || c = '\x0d'

def isDigitC (c : Char) : Bool := '0' ≤ c && c ≤ '9'

def digitVal (c : Char) : Nat := c.toNat - '0'.toNat

/-- `strchr(buf + i, c)`: index of the first occurrence of `c` at or after
`i`, stopping at the first NUL.  The first argument of the fuel pair is
structural fuel; every call site passes `b.length + 1`, which is always
enough. -/
def strchrFrom (b : List Char) (c : Char) : Nat → Nat → Option Nat
  | 0, _ => none
  | f + 1, i =>
    let x := bufGet b i
    if x = '\x00' then none
    else if x = c then some i
    else strchrFrom b c f (i + 1)

/-- `strncmp(buf + i, "GPSD", 4) == 0` (a NUL inside the window makes the
comparison fail, since the marker has no NUL). -/
def isGPSDAt (b : List Char) (i : Nat) : Bool :=
  bufGet b i == 'G' && bufGet b (i + 1) == 'P' &&
  bufGet b (i + 2) == 'S' && bufGet b (i + 3) == 'D'

/-- `strstr(buf + i, "GPSD")`: first full occurrence of the marker at or
after `i` and before the first NUL. -/
def strstrGPSD (b : List Char) : Nat → Nat → Option Nat
  | 0, _ => none
  | f + 1, i =>
    if bufGet b i = '\x00' then none
    else if isGPSDAt b i then some i
    else strstrGPSD b f (i + 1)

def skipSpacesFrom (b : List Char) : Nat → Nat → Nat
  | 0, i => i
  | f + 1, i => if isSpaceC (bufGet b i) then skipSpacesFrom b f (i + 1) else i

/-- Greedy run of decimal digits from `i`: returns (value, digit count,
next index). -/
def parseDigitsAux (b : List Char) : Nat → Nat → Nat → Nat → Nat × Nat × Nat
  | 0, i, acc, cnt => (acc, cnt, i)
  | f + 1, i, acc, cnt =>
    let c := bufGet b i
    if isDigitC c then parseDigitsAux b f (i + 1) (acc * 10 + digitVal c) (cnt + 1)
    else (acc, cnt, i)

/-- `sscanf` `%d` conversion at `i`: optional whitespace, optional sign,
at least one digit; fails (and assigns nothing) otherwise.  (Overflow of
the C `int` is undefined behaviour; the model keeps the exact integer.) -/
def scanInt (b : List Char) (i : Nat) : Option (Int × Nat) :=
  let j := skipSpacesFrom b (b.length + 1) i
  let neg : Bool := bufGet b j == '-'
  let k := if bufGet b j = '-' ∨ bufGet b j = '+' then j + 1 else j
  let r := parseDigitsAux b (b.length + 1) k 0 0
  if r.2.1 = 0 then none
  else some (if neg then -(r.1 : Int) else (r.1 : Int), r.2.2)

/-- `sscanf` `%lf` conversion at `i`: optional whitespace, optional sign,
digits with an optional decimal point (at least one digit overall), and an
optional exponent (consumed only when well-formed, as with strtod's
longest-valid-prefix rule).  The hexadecimal, infinity and NaN forms of
strtod are not modelled (no caller of this code path produces them). -/
def scanLf (b : List Char) (i : Nat) : Option (ℚ × Nat) :=
  let j := skipSpacesFrom b (b.length + 1) i
  let neg : Bool := bufGet b j == '-'
  let k := if bufGet b j = '-' ∨ bufGet b j = '+' then j + 1 else j
  let ri := parseDigitsAux b (b.length + 1) k 0 0
  let rf := if bufGet b ri.2.2 = '.' then parseDigitsAux b (b.length + 1) (ri.2.2 + 1) 0 0
            else (0, 0, ri.2.2)
  if ri.2.1 + rf.2.1 = 0 then none
  else
    let mant : ℚ := (ri.1 : ℚ) + (rf.1 : ℚ) / ((10 : ℚ) ^ rf.2.1)
    let signed : ℚ := if neg then -mant else mant
    let re : Int × Nat :=
      if bufGet b rf.2.2 = 'e' ∨ bufGet b rf.2.2 = 'E' then
        let eneg : Bool := bufGet b (rf.2.2 + 1) == '-'
        let m := if bufGet b (rf.2.2 + 1) = '-' ∨ bufGet b (rf.2.2 + 1) = '+' then rf.2.2 + 2
                 else rf.2.2 + 1
        let rd := parseDigitsAux b (b.length + 1) m 0 0
        if rd.2.1 = 0 then ((0 : Int), rf.2.2)
        else (if eneg then -(rd.1 : Int) else (rd.1 : Int), rd.2.2)
      else ((0 : Int), rf.2.2)
    some (signed * (10 : ℚ) ^ re.1, re.2)

def takeWordAux (b : List Char) : Nat → Nat → List Char × Nat
  | 0, i => ([], i)
  | f + 1, i =>
    let c := bufGet b i
    if c = '\x00' ∨ isSpaceC c = true then ([], i)
    else
      let r := takeWordAux b f (i + 1)
      (c :: r.1, r.2)

/-- `sscanf` `%s` conversion: optional whitespace then at least one
non-whitespace character; fails at end of input. -/
def scanWord (b : List Char) (i : Nat) : Option (List Char × Nat) :=
  let j := skipSpacesFrom b (b.length + 1) i
  if bufGet b j = '\x00' then none
  else some (takeWordAux b (b.length + 1) j)

/-- The source of a `strcpy`/`strdup` from `buf + i`: the characters up to
the next NUL. -/
def readStringAux (b : List Char) : Nat → Nat → List Char
  | 0, _ => []
  | f + 1, i =>
    let c := bufGet b i
    if c = '\x00' then [] else c :: readStringAux b f (i + 1)

def readString (b : List Char) (i : Nat) : List Char :=
  readStringAux b (b.length + 1) i

/-- C `atoi(buf + i)`: like `%d` but yielding 0 when no digits follow the
optional whitespace and sign. -/
def atoiFrom (b : List Char) (i : Nat) : Int :=
  match scanInt b i with
  | some r => r.1
  | none => 0

/-- `sscanf(sp, "%d %d %d %d %d", &i1..&i5)` with the C partial-assignment
semantics: conversions are attempted left to right and a failing conversion
leaves that variable and all later ones at their previous values
(`o1`..`o5`, the values the uninitialized C locals happened to hold from
the previous iteration). -/
def scan5Ints (b : List Char) (i : Nat) (o1 o2 o3 o4 o5 : Int) :
    Int × Int × Int × Int × Int :=
  match scanInt b i with
  | none => (o1, o2, o3, o4, o5)
  | some (v1, p1) =>
    match scanInt b p1 with
    | none => (v1, o2, o3, o4, o5)
    | some (v2, p2) =>
      match scanInt b p2 with
      | none => (v1, v2, o3, o4, o5)
      | some (v3, p3) =>
        match scanInt b p3 with
        | none => (v1, v2, v3, o4, o5)
        | some (v4, p4) =>
          match scanInt b p4 with
          | none => (v1, v2, v3, v4, o5)
          | some (v5, _) => (v1, v2, v3, v4, v5)

/-- State of the satellite-table parsing loop of the `'Y'` case
(src:142-151): the current scan position, the five stack-local arrays
(uninitialized in C; modelled as starting all zero), the five scratch ints
`i1`..`i5` (also uninitialized C locals; modelled as starting 0 and keeping
their last parsed values across iterations, as the C locals do), the ghost
list of array indices written, and a ghost flag recording that the C
program performed undefined behaviour (`strchr` returned NULL and the code
dereferenced NULL+1). -/
structure YSt where
  sp : Nat
  p : Nat → Int
  e : Nat → Int
  a : Nat → Int
  s : Nat → Int
  u : Nat → Int
  i1 : Int
  i2 : Int
  i3 : Int
  i4 : Int
  i5 : Int
  writes : List Nat
  ub : Bool

/-- The per-satellite parse loop of the `'Y'` case (src:145-151): `sp =
strchr(sp, ':') + 1; sscanf(sp, "%d %d %d %d %d", ...); PRN[j] = i1; ...`.
The first argument is the remaining iteration count, the second the current
index `j`.  Writes to the local arrays are performed at `j` without any
bound check, exactly as in the source; the ghost `writes` field records
every such index. -/
def yLoop (b : List Char) : Nat → Nat → YSt → YSt
  | 0, _, st => st
  | k + 1, j, st =>
    match strchrFrom b ':' (b.length + 1) st.sp with
    | none => { st with ub := true }
    | some t =>
      let sp2 := t + 1
      let r := scan5Ints b sp2 st.i1 st.i2 st.i3 st.i4 st.i5
      yLoop b k (j + 1)
        { sp := sp2,
          p := Function.update st.p j r.1,
          e := Function.update st.e j r.2.1,
          a := Function.update st.a j r.2.2.1,
          s := Function.update st.s j r.2.2.2.1,
          u := Function.update st.u j r.2.2.2.2,
          i1 := r.1, i2 := r.2.1, i3 := r.2.2.1, i4 := r.2.2.2.1, i5 := r.2.2.2.2,
          writes := st.writes ++ [j], ub := false }

/-- `memcpy(gpsdata->X, X, sizeof(X))` for one satellite array: the first
`MAXCHANNELS` entries are replaced wholesale by the local array's. -/
def copyArr (src dst : Nat → Int) : Nat → Int :=
  fun k => if k < MAXCHANNELS then src k else dst k

/-- Initial state of the `'Y'` parse loop: the five local arrays and the
five scratch ints are uninitialized C stack locals, modelled as all zero;
`sp` still points at the fragment head. -/
def yInit (sp : Nat) : YSt :=
  { sp := sp, p := fun _ => 0, e := fun _ => 0, a := fun _ => 0,
    s := fun _ => 0, u := fun _ => 0,
    i1 := 0, i2 := 0, i3 := 0, i4 := 0, i5 := 0, writes := [], ub := false }

/-- Result of processing one fragment: the updated session state, change
mask, ghost satellite-array write indices, and ghost
undefined-behaviour flag. -/
structure FragRes where
  g : GpsData
  changed : Nat
  yw : List Nat
  ub : Bool

/-- The `switch (*sp)` of src:72-186, processing the fragment starting at
`sp` (already NUL-terminated at the delimiter by the caller).  Each case
transcribes the corresponding C case; `sscanf` conversions assign fields
left to right and stop at the first failing conversion, leaving the
remaining fields untouched. -/
def doFragment (b : List Char) (sp : Nat) (g : GpsData) (c : Nat)
    (yw : List Nat) : FragRes :=
  let ch := bufGet b sp
  if ch = 'A' then
    -- src:73-76: sscanf(sp, "A=%lf", &fix.altitude); changed |= ALTITUDE_SET
    { g := if bufGet b sp = 'A' ∧ bufGet b (sp + 1) = '=' then
             match scanLf b (sp + 2) with
             | some r => { g with fix.altitude := r.1 }
             | none => g
           else g,
      changed := c ||| ALTITUDE_SET, yw := yw, ub := false }
  else if ch = 'B' then
    -- src:77-80: sscanf(sp, "B=%d %*d %*s %d", &baudrate, &stopbits)
    { g := if bufGet b sp = 'B' ∧ bufGet b (sp + 1) = '=' then
             match scanInt b (sp + 2) with
             | none => g
             | some (v1, p1) =>
               let g1 := { g with baudrate := v1 }
               match scanInt b p1 with
               | none => g1
               | some (_, p2) =>
                 match scanWord b p2 with
                 | none => g1
                 | some (_, p3) =>
                   match scanInt b p3 with
                   | none => g1
                   | some (v4, _) => { g1 with stopbits := v4 }
           else g,
      changed := c, yw := yw, ub := false }
  else if ch = 'C' then
    -- src:81-83: sscanf(sp, "C=%d", &cycle)
    { g := if bufGet b sp = 'C' ∧ bufGet b (sp + 1) = '=' then
             match scanInt b (sp + 2) with
             | some r => { g with cycle := r.1 }
             | none => g
           else g,
      changed := c, yw := yw, ub := false }
  else if ch = 'D' then
    -- src:84-86: strcpy(gpsdata->utc, sp + 2)
    { g := { g with utc := readString b (sp + 2) },
      changed := c, yw := yw, ub := false }
  else if ch = 'E' then
    -- src:87-91: sscanf(sp, "E=%lf %lf %lf", &epe, &fix.eph, &fix.epv);
    -- changed |= POSERR_SET
    { g := if bufGet b sp = 'E' ∧ bufGet b (sp + 1) = '=' then
             match scanLf b (sp + 2) with
             | none => g
             | some (v1, p1) =>
               let g1 := { g with epe := v1 }
               match scanLf b p1 with
               | none => g1
               | some (v2, p2) =>
                 let g2 := { g1 with fix.eph := v2 }
                 match scanLf b p2 with
                 | none => g2
                 | some (v3, _) => { g2 with fix.epv := v3 }
           else g,
      changed := c ||| POSERR_SET, yw := yw, ub := false }
  else if ch = 'I' then
    -- src:92-95: free any previous gps_id, strdup(sp + 2); NOTE: the source
    -- has no `break` here, so control falls through into the 'M' case
    -- (src:96-99), which also assigns fix.mode = atoi(sp + 2) and sets
    -- MODE_SET
    { g := { g with gps_id := some (readString b (sp + 2)),
                    fix.mode := atoiFrom b (sp + 2) },
      changed := c ||| MODE_SET, yw := yw, ub := false }
  else if ch = 'M' then
    -- src:96-99: fix.mode = atoi(sp + 2); changed |= MODE_SET
    { g := { g with fix.mode := atoiFrom b (sp + 2) },
      changed := c ||| MODE_SET, yw := yw, ub := false }
  else if ch = 'N' then
    -- src:100-102: driver_mode = atoi(sp + 2)
    { g := { g with driver_mode := atoiFrom b (sp + 2) },
      changed := c, yw := yw, ub := false }
  else if ch = 'P' then
    -- src:103-106: sscanf(sp, "P=%lf %lf", &fix.latitude, &fix.longitude);
    -- changed |= LATLON_SET
    { g := if bufGet b sp = 'P' ∧ bufGet b (sp + 1) = '=' then
             match scanLf b (sp + 2) with
             | none => g
             | some (v1, p1) =>
               let g1 := { g with fix.latitude := v1 }
               match scanLf b p1 with
               | none => g1
               | some (v2, _) => { g1 with fix.longitude := v2 }
           else g,
      changed := c ||| LATLON_SET, yw := yw, ub := false }
  else if ch = 'Q' then
    -- src:108-113: sscanf(sp, "Q=%d %lf %lf %lf", &satellites_used,
    -- &pdop, &hdop, &vdop); changed |= DOP_SET
    { g := if bufGet b sp = 'Q' ∧ bufGet b (sp + 1) = '=' then
             match scanInt b (sp + 2) with
             | none => g
             | some (v1, p1) =>
               let g1 := { g with satellites_used := v1 }
               match scanLf b p1 with
               | none => g1
               | some (v2, p2) =>
                 let g2 := { g1 with pdop := v2 }
                 match scanLf b p2 with
                 | none => g2
                 | some (v3, p3) =>
                   let g3 := { g2 with hdop := v3 }
                   match scanLf b p3 with
                   | none => g3
                   | some (v4, _) => { g3 with vdop := v4 }
           else g,
      changed := c ||| DOP_SET, yw := yw, ub := false }
  else if ch = 'S' then
    -- src:114-117: status = atoi(sp + 2); changed |= STATUS_SET
    { g := { g with status := atoiFrom b (sp + 2) },
      changed := c ||| STATUS_SET, yw := yw, ub := false }
  else if ch = 'T' then
    -- src:118-121: sscanf(sp, "T=%lf", &fix.track); changed |= TRACK_SET
    { g := if bufGet b sp = 'T' ∧ bufGet b (sp + 1) = '=' then
             match scanLf b (sp + 2) with
             | some r => { g with fix.track := r.1 }
             | none => g
           else g,
      changed := c ||| TRACK_SET, yw := yw, ub := false }
  else if ch = 'U' then
    -- src:122-125: sscanf(sp, "U=%lf", &fix.climb); changed |= CLIMB_SET
    { g := if bufGet b sp = 'U' ∧ bufGet b (sp + 1) = '=' then
             match scanLf b (sp + 2) with
             | some r => { g with fix.climb := r.1 }
             | none => g
           else g,
      changed := c ||| CLIMB_SET, yw := yw, ub := false }
  else if ch = 'V' then
    -- src:126-129: sscanf(sp, "V=%lf", &fix.speed); changed |= SPEED_SET
    { g := if bufGet b sp = 'V' ∧ bufGet b (sp + 1) = '=' then
             match scanLf b (sp + 2) with
             | some r => { g with fix.speed := r.1 }
             | none => g
           else g,
      changed := c ||| SPEED_SET, yw := yw, ub := false }
  else if ch = 'X' then
    -- src:130-133: sscanf(sp, "V=%lf", &fix.speed) — the format's literal
    -- 'V' never matches the 'X' at *sp, so the conversion never assigns;
    -- changed |= ONLINE_SET is still set
    { g := if bufGet b sp = 'V' ∧ bufGet b (sp + 1) = '=' then
             match scanLf b (sp + 2) with
             | some r => { g with fix.speed := r.1 }
             | none => g
           else g,
      changed := c ||| ONLINE_SET, yw := yw, ub := false }
  else if ch = 'Y' then
    -- src:134-171: satellites = atoi(sp + 2); if nonzero, zero the local
    -- arrays at indices 0..satellites-1, parse that many colon-delimited
    -- groups, and memcpy the local arrays over the session's; finally
    -- changed |= SATELLITE_SET.  Neither loop bounds its index against
    -- MAXCHANNELS.
    let sats := atoiFrom b (sp + 2)
    let g1 := { g with satellites := sats }
    if sats ≠ 0 then
      let n := sats.toNat
      let st := yLoop b n 0 (yInit sp)
      if st.ub then
        { g := g1, changed := c, yw := (yw ++ List.range n) ++ st.writes, ub := true }
      else
        { g := { g1 with PRN := copyArr st.p g1.PRN,
                         elevation := copyArr st.e g1.elevation,
                         azimuth := copyArr st.a g1.azimuth,
                         ss := copyArr st.s g1.ss,
                         used := copyArr st.u g1.used },
          changed := c ||| SATELLITE_SET,
          yw := (yw ++ List.range n) ++ st.writes, ub := false }
    else
      { g := g1, changed := c ||| SATELLITE_SET, yw := yw, ub := false }
  else if ch = 'Z' then
    -- src:172-174: sscanf(sp, "Z=%d", &profiling)
    { g := if bufGet b sp = 'Z' ∧ bufGet b (sp + 1) = '=' then
             match scanInt b (sp + 2) with
             | some r => { g with profiling := r.1 }
             | none => g
           else g,
      changed := c, yw := yw, ub := false }
  else if ch = '$' then
    -- src:175-185: sscanf(sp, "$=%s %d %lf %lf %lf %lf %lf %lf", tag,
    -- &sentence_length, &fix.time, &d_xmit_time, &d_recv_time,
    -- &d_decode_time, &poll_time, &emit_time)
    { g := if bufGet b sp = '$' ∧ bufGet b (sp + 1) = '=' then
             match scanWord b (sp + 2) with
             | none => g
             | some (w, p1) =>
               let g1 := { g with tag := w }
               match scanInt b p1 with
               | none => g1
               | some (v2, p2) =>
                 let g2 := { g1 with sentence_length := v2 }
                 match scanLf b p2 with
                 | none => g2
                 | some (v3, p3) =>
                   let g3 := { g2 with fix.time := v3 }
                   match scanLf b p3 with
                   | none => g3
                   | some (v4, p4) =>
                     let g4 := { g3 with d_xmit_time := v4 }
                     match scanLf b p4 with
                     | none => g4
                     | some (v5, p5) =>
                       let g5 := { g4 with d_recv_time := v5 }
                       match scanLf b p5 with
                       | none => g5
                       | some (v6, p6) =>
                         let g6 := { g5 with d_decode_time := v6 }
                         match scanLf b p6 with
                         | none => g6
                         | some (v7, p7) =>
                           let g7 := { g6 with poll_time := v7 }
                           match scanLf b p7 with
                           | none => g7
                           | some (v8, _) => { g7 with emit_time := v8 }
           else g,
      changed := c, yw := yw, ub := false }
  else
    { g := g, changed := c, yw := yw, ub := false }

/-- Result threaded through the fragment and sentence loops: the (mutated)
buffer, session state, change mask, ghost satellite write indices and ghost
undefined-behaviour flag. -/
structure PRes where
  buf : List Char
  g : GpsData
  changed : Nat
  yw : List Nat
  ub : Bool

/-- The inner fragment loop of src:63-187: starting at `sp`, find the next
delimiter (`,`, else CR), overwrite it with NUL in the buffer, skip the
fragment when its third character is `'?'`, otherwise dispatch on its
leading tag character; continue after the delimiter until no delimiter
remains.  Fuel is structural; every call passes `b.length + 1`, which is
always sufficient since each iteration advances `sp` past `tp < b.length`. -/
def findDelim (b : List Char) (sp : Nat) : Option Nat :=
  match strchrFrom b ',' (b.length + 1) sp with
  | some t => some t
  | none => strchrFrom b '\x0d' (b.length + 1) sp

def fragLoop : Nat → List Char → Nat → GpsData → Nat → List Nat → PRes
  | 0, b, _, g, c, yw => { buf := b, g := g, changed := c, yw := yw, ub := false }
  | fuel + 1, b, sp, g, c, yw =>
    match findDelim b sp with
    | none => { buf := b, g := g, changed := c, yw := yw, ub := false }
    | some tp =>
      let b2 := bufSet b tp '\x00'
      if bufGet b2 (sp + 2) = '?' then
        fragLoop fuel b2 (tp + 1) g c yw
      else
        let fr := doFragment b2 sp g c yw
        if fr.ub then
          { buf := b2, g := fr.g, changed := fr.changed, yw := fr.yw, ub := true }
        else
          fragLoop fuel b2 (tp + 1) fr.g fr.changed fr.yw

/-- The outer sentence loop of src:61-189: starting from the buffer head,
run the fragment loop after each position where the 4-byte marker compares
equal, then continue from `strstr(ns + 1, "GPSD")` on the (by now mutated)
buffer until no marker is found. -/
def sentenceLoop : Nat → List Char → Option Nat → GpsData → Nat → List Nat → PRes
  | 0, b, _, g, c, yw => { buf := b, g := g, changed := c, yw := yw, ub := false }
  | fuel + 1, b, ns?, g, c, yw =>
    match ns? with
    | none => { buf := b, g := g, changed := c, yw := yw, ub := false }
    | some ns =>
      if isGPSDAt b ns then
        let r := fragLoop (b.length + 1) b (ns + 5) g c yw
        if r.ub then r
        else
          sentenceLoop fuel r.buf (strstrGPSD r.buf (r.buf.length + 1) (ns + 1))
            r.g r.changed r.yw
      else
        sentenceLoop fuel b (strstrGPSD b (b.length + 1) (ns + 1)) g c yw

/-- Result of `gps_unpack`: the final session state, the returned change
mask, the buffer as mutated by the call, the argument passed to the
raw hook (`none` when no hook is registered, or when the C program crashed
before reaching it), and the ghost satellite-array write indices and
undefined-behaviour flag. -/
structure UnpackResult where
  g : GpsData
  changed : Nat
  buf : List Char
  hookArg : Option (List Char)
  ywrites : List Nat
  ub : Bool

/-- `gps_unpack` (src/libgps.c:55-195): parse every sentence in the buffer
into the session state, then, if a raw hook is registered, invoke it with
the (mutated, in place) buffer; return the change mask accumulated during
this call (`changed` starts at 0 on every call). -/
def gps_unpack (buf : List Char) (g : GpsData) : UnpackResult :=
  let r := sentenceLoop (buf.length + 1) buf (some 0) g 0 []
  { g := r.g, changed := r.changed, buf := r.buf,
    hookArg := if r.ub then none else if r.g.raw_hook then some r.buf else none,
    ywrites := r.yw, ub := r.ub }

/-- View a Lean string as the modelled C buffer. -/
def mkBuf (s : String) : List Char := s.data

/- ## Concrete session fixtures for the closed theorems below -/

/-- A concrete fix record used as a test fixture (values arbitrary but
distinctive). -/
def fix0 : GpsFix :=
  { mode := 3, time := 0, latitude := 1, longitude := 2, altitude := 5,
    eph := 0, epv := 0, track := 9, speed := 0, climb := 0 }

/-- A concrete session state used as a test fixture in the closed
counterexample and witness theorems (values arbitrary but distinctive;
no raw hook registered). -/
def sess0 : GpsData :=
  { online := 0, fix := fix0, status := 2, satellites_used := 0,
    pdop := 0, hdop := 0, vdop := 0, epe := 0, baudrate := 0, stopbits := 0,
    cycle := 0, utc := [], gps_id := none, driver_mode := 0, satellites := 0,
    PRN := fun _ => 0, elevation := fun _ => 0, azimuth := fun _ => 0,
    ss := fun _ => 0, used := fun _ => 0, profiling := 0, tag := [],
    sentence_length := 0, d_xmit_time := 0, d_recv_time := 0,
    d_decode_time := 0, poll_time := 0, emit_time := 0, raw_hook := false }

/-- The same session with a raw hook registered. -/
def sessHook : GpsData := { sess0 with raw_hook := true }

/-- C2 counterexample: the fragment `A=x`, whose numeric value fails to
parse, leaves the stored altitude unchanged — but the returned mask still
contains the altitude bit, contradicting the claim that a failed field
parse does not set that field's bit. -/
theorem failed_parse_sets_bit_counterexample :
    (gps_unpack (mkBuf "GPSD,A=x\x0d") sess0).g.fix.altitude = sess0.fix.altitude ∧
    (gps_unpack (mkBuf "GPSD,A=x\x0d") sess0).changed &&& ALTITUDE_SET ≠ 0 := by
  constructor
  · rfl
  · decide

set_option maxHeartbeats 3200000 in
/-- C2 (amended): for every fragment of the textual protocol carrying a
change bit whose numeric conversion fails — at whatever position of the
fragment's format — every field at or after the failing conversion keeps
its previously stored value, but the fragment's change bit is still set in
the returned mask regardless of parse success.  A failed parse is never
fatal: a fragment of any tag other than the satellite table never aborts
the call, and the fragment loop always continues past a processed fragment
with the remaining fragments and sentences; the final conjunct exercises
this end to end on a buffer whose malformed altitude fragment is followed
by a further fragment and a second sentence, both applied. -/
theorem failed_parse_best_effort :
    (∀ (b : List Char) (sp : Nat) (g : GpsData) (c : Nat) (yw : List Nat),
      (bufGet b sp ≠ 'Y' → (doFragment b sp g c yw).ub = false) ∧
      (bufGet b sp = 'A' → scanLf b (sp + 2) = none →
        (doFragment b sp g c yw).g.fix.altitude = g.fix.altitude ∧
        (doFragment b sp g c yw).changed = c ||| ALTITUDE_SET) ∧
      (bufGet b sp = 'T' → scanLf b (sp + 2) = none →
        (doFragment b sp g c yw).g.fix.track = g.fix.track ∧
        (doFragment b sp g c yw).changed = c ||| TRACK_SET) ∧
      (bufGet b sp = 'U' → scanLf b (sp + 2) = none →
        (doFragment b sp g c yw).g.fix.climb = g.fix.climb ∧
        (doFragment b sp g c yw).changed = c ||| CLIMB_SET) ∧
      (bufGet b sp = 'V' → scanLf b (sp + 2) = none →
        (doFragment b sp g c yw).g.fix.speed = g.fix.speed ∧
        (doFragment b sp g c yw).changed = c ||| SPEED_SET) ∧
      (bufGet b sp = 'X' →
        (doFragment b sp g c yw).g.fix.speed = g.fix.speed ∧
        (doFragment b sp g c yw).changed = c ||| ONLINE_SET) ∧
      (bufGet b sp = 'P' → scanLf b (sp + 2) = none →
        (doFragment b sp g c yw).g.fix.latitude = g.fix.latitude ∧
        (doFragment b sp g c yw).g.fix.longitude = g.fix.longitude ∧
        (doFragment b sp g c yw).changed = c ||| LATLON_SET) ∧
      (∀ (v1 : ℚ) (p1 : Nat), bufGet b sp = 'P' → scanLf b (sp + 2) = some (v1, p1) →
        scanLf b p1 = none →
        (doFragment b sp g c yw).g.fix.longitude = g.fix.longitude ∧
        (doFragment b sp g c yw).changed = c ||| LATLON_SET) ∧
      (bufGet b sp = 'E' → scanLf b (sp + 2) = none →
        (doFragment b sp g c yw).g.epe = g.epe ∧
        (doFragment b sp g c yw).g.fix.eph = g.fix.eph ∧
        (doFragment b sp g c yw).g.fix.epv = g.fix.epv ∧
        (doFragment b sp g c yw).changed = c ||| POSERR_SET) ∧
      (∀ (v1 : ℚ) (p1 : Nat), bufGet b sp = 'E' → scanLf b (sp + 2) = some (v1, p1) →
        scanLf b p1 = none →
        (doFragment b sp g c yw).g.fix.eph = g.fix.eph ∧
        (doFragment b sp g c yw).g.fix.epv = g.fix.epv ∧
        (doFragment b sp g c yw).changed = c ||| POSERR_SET) ∧
      (∀ (v1 : ℚ) (p1 : Nat) (v2 : ℚ) (p2 : Nat), bufGet b sp = 'E' →
        scanLf b (sp + 2) = some (v1, p1) → scanLf b p1 = some (v2, p2) →
        scanLf b p2 = none →
        (doFragment b sp g c yw).g.fix.epv = g.fix.epv ∧
        (doFragment b sp g c yw).changed = c ||| POSERR_SET) ∧
      (bufGet b sp = 'Q' → scanInt b (sp + 2) = none →
        (doFragment b sp g c yw).g.satellites_used = g.satellites_used ∧
        (doFragment b sp g c yw).g.pdop = g.pdop ∧
        (doFragment b sp g c yw).g.hdop = g.hdop ∧
        (doFragment b sp g c yw).g.vdop = g.vdop ∧
        (doFragment b sp g c yw).changed = c ||| DOP_SET) ∧
      (∀ (n1 : Int) (q1 : Nat), bufGet b sp = 'Q' → scanInt b (sp + 2) = some (n1, q1) →
        scanLf b q1 = none →
        (doFragment b sp g c yw).g.pdop = g.pdop ∧
        (doFragment b sp g c yw).g.hdop = g.hdop ∧
        (doFragment b sp g c yw).g.vdop = g.vdop ∧
        (doFragment b sp g c yw).changed = c ||| DOP_SET) ∧
      (∀ (n1 : Int) (q1 : Nat) (v2 : ℚ) (p2 : Nat), bufGet b sp = 'Q' →
        scanInt b (sp + 2) = some (n1, q1) → scanLf b q1 = some (v2, p2) →
        scanLf b p2 = none →
        (doFragment b sp g c yw).g.hdop = g.hdop ∧
        (doFragment b sp g c yw).g.vdop = g.vdop ∧
        (doFragment b sp g c yw).changed = c ||| DOP_SET) ∧
      (∀ (n1 : Int) (q1 : Nat) (v2 : ℚ) (p2 : Nat) (v3 : ℚ) (p3 : Nat),
        bufGet b sp = 'Q' → scanInt b (sp + 2) = some (n1, q1) →
        scanLf b q1 = some (v2, p2) → scanLf b p2 = some (v3, p3) →
        scanLf b p3 = none →
        (doFragment b sp g c yw).g.vdop = g.vdop ∧
        (doFragment b sp g c yw).changed = c ||| DOP_SET)) ∧
    (∀ (fuel : Nat) (b : List Char) (sp : Nat) (g : GpsData) (c : Nat)
        (yw : List Nat) (tp : Nat), findDelim b sp = some tp →
      bufGet (bufSet b tp '\x00') (sp + 2) ≠ '?' →
      (doFragment (bufSet b tp '\x00') sp g c yw).ub = false →
      fragLoop (fuel + 1) b sp g c yw
        = fragLoop fuel (bufSet b tp '\x00') (tp + 1)
            (doFragment (bufSet b tp '\x00') sp g c yw).g
            (doFragment (bufSet b tp '\x00') sp g c yw).changed
            (doFragment (bufSet b tp '\x00') sp g c yw).yw) ∧
    (∀ g : GpsData,
      (gps_unpack (mkBuf "GPSD,A=x,S=7\x0dGPSD,T=4\x0d") g).g.fix.altitude
          = g.fix.altitude ∧
      (gps_unpack (mkBuf "GPSD,A=x,S=7\x0dGPSD,T=4\x0d") g).g.status = 7 ∧
      (gps_unpack (mkBuf "GPSD,A=x,S=7\x0dGPSD,T=4\x0d") g).g.fix.track = 4 ∧
      (gps_unpack (mkBuf "GPSD,A=x,S=7\x0dGPSD,T=4\x0d") g).changed
          = ALTITUDE_SET ||| STATUS_SET ||| TRACK_SET) := by
  refine ⟨fun b sp g c yw =>
    ⟨?_, ?_, ?_, ?_, ?_, ?_, ?_, ?_, ?_, ?_, ?_, ?_, ?_, ?_, ?_⟩, ?_, ?_⟩
  · intro h
    simp only [doFragment]
    by_cases hA : bufGet b sp = 'A'
    · rw [if_pos hA]
      try rfl
    rw [if_neg hA]
    by_cases hB : bufGet b sp = 'B'
    · rw [if_pos hB]
      try rfl
    rw [if_neg hB]
    by_cases hC : bufGet b sp = 'C'
    · rw [if_pos hC]
      try rfl
    rw [if_neg hC]
    by_cases hD : bufGet b sp = 'D'
    · rw [if_pos hD]
      try rfl
    rw [if_neg hD]
    by_cases hE : bufGet b sp = 'E'
    · rw [if_pos hE]
      try rfl
    rw [if_neg hE]
    by_cases hI : bufGet b sp = 'I'
    · rw [if_pos hI]
      try rfl
    rw [if_neg hI]
    by_cases hM : bufGet b sp = 'M'
    · rw [if_pos hM]
      try rfl
    rw [if_neg hM]
    by_cases hN : bufGet b sp = 'N'
    · rw [if_pos hN]
      try rfl
    rw [if_neg hN]
    by_cases hP : bufGet b sp = 'P'
    · rw [if_pos hP]
      try rfl
    rw [if_neg hP]
    by_cases hQ : bufGet b sp = 'Q'
    · rw [if_pos hQ]
      try rfl
    rw [if_neg hQ]
    by_cases hS : bufGet b sp = 'S'
    · rw [if_pos hS]
      try rfl
    rw [if_neg hS]
    by_cases hT : bufGet b sp = 'T'
    · rw [if_pos hT]
      try rfl
    rw [if_neg hT]
    by_cases hU : bufGet b sp = 'U'
    · rw [if_pos hU]
      try rfl
    rw [if_neg hU]
    by_cases hV : bufGet b sp = 'V'
    · rw [if_pos hV]
      try rfl
    rw [if_neg hV]
    by_cases hX : bufGet b sp = 'X'
    · rw [if_pos hX]
      try rfl
    rw [if_neg hX]
    rw [if_neg h]
    by_cases hZ2 : bufGet b sp = 'Z'
    · rw [if_pos hZ2]
      try rfl
    rw [if_neg hZ2]
    by_cases hD2 : bufGet b sp = '$'
    · rw [if_pos hD2]
      try rfl
    rw [if_neg hD2]
    try rfl
  · intro h hm1
    simp only [doFragment]
    rw [if_pos h]
    by_cases hl : bufGet b sp = 'A' ∧ bufGet b (sp + 1) = '='
    · rw [if_pos hl]
      rw [hm1]
      exact ⟨rfl, rfl⟩
    · rw [if_neg hl]
      exact ⟨rfl, rfl⟩
  · intro h hm1
    simp only [doFragment]
    rw [if_neg (show bufGet b sp ≠ 'A' by rw [h]; decide),
      if_neg (show bufGet b sp ≠ 'B' by rw [h]; decide),
      if_neg (show bufGet b sp ≠ 'C' by rw [h]; decide),
      if_neg (show bufGet b sp ≠ 'D' by rw [h]; decide),
      if_neg (show bufGet b sp ≠ 'E' by rw [h]; decide),
      if_neg (show bufGet b sp ≠ 'I' by rw [h]; decide),
      if_neg (show bufGet b sp ≠ 'M' by rw [h]; decide),
      if_neg (show bufGet b sp ≠ 'N' by rw [h]; decide),
      if_neg (show bufGet b sp ≠ 'P' by rw [h]; decide),
      if_neg (show bufGet b sp ≠ 'Q' by rw [h]; decide),
      if_neg (show bufGet b sp ≠ 'S' by rw [h]; decide),
      if_pos h]
    by_cases hl : bufGet b sp = 'T' ∧ bufGet b (sp + 1) = '='
    · rw [if_pos hl]
      rw [hm1]
      exact ⟨rfl, rfl⟩
    · rw [if_neg hl]
      exact ⟨rfl, rfl⟩
  · intro h hm1
    simp only [doFragment]
    rw [if_neg (show bufGet b sp ≠ 'A' by rw [h]; decide),
      if_neg (show bufGet b sp ≠ 'B' by rw [h]; decide),
      if_neg (show bufGet b sp ≠ 'C' by rw [h]; decide),
      if_neg (show bufGet b sp ≠ 'D' by rw [h]; decide),
      if_neg (show bufGet b sp ≠ 'E' by rw [h]; decide),
      if_neg (show bufGet b sp ≠ 'I' by rw [h]; decide),
      if_neg (show bufGet b sp ≠ 'M' by rw [h]; decide),
      if_neg (show bufGet b sp ≠ 'N' by rw [h]; decide),
      if_neg (show bufGet b sp ≠ 'P' by rw [h]; decide),
      if_neg (show bufGet b sp ≠ 'Q' by rw [h]; decide),
      if_neg (show bufGet b sp ≠ 'S' by rw [h]; decide),
      if_neg (show bufGet b sp ≠ 'T' by rw [h]; decide),
      if_pos h]
    by_cases hl : bufGet b sp = 'U' ∧ bufGet b (sp + 1) = '='
    · rw [if_pos hl]
      rw [hm1]
      exact ⟨rfl, rfl⟩
    · rw [if_neg hl]
      exact ⟨rfl, rfl⟩
  · intro h hm1
    simp only [doFragment]
    rw [if_neg (show bufGet b sp ≠ 'A' by rw [h]; decide),
      if_neg (show bufGet b sp ≠ 'B' by rw [h]; decide),
      if_neg (show bufGet b sp ≠ 'C' by rw [h]; decide),
      if_neg (show bufGet b sp ≠ 'D' by rw [h]; decide),
      if_neg (show bufGet b sp ≠ 'E' by rw [h]; decide),
      if_neg (show bufGet b sp ≠ 'I' by rw [h]; decide),
      if_neg (show bufGet b sp ≠ 'M' by rw [h]; decide),
      if_neg (show bufGet b sp ≠ 'N' by rw [h]; decide),
      if_neg (show bufGet b sp ≠ 'P' by rw [h]; decide),
      if_neg (show bufGet b sp ≠ 'Q' by rw [h]; decide),
      if_neg (show bufGet b sp ≠ 'S' by rw [h]; decide),
      if_neg (show bufGet b sp ≠ 'T' by rw [h]; decide),
      if_neg (show bufGet b sp ≠ 'U' by rw [h]; decide),
      if_pos h]
    by_cases hl : bufGet b sp = 'V' ∧ bufGet b (sp + 1) = '='
    · rw [if_pos hl]
      rw [hm1]
      exact ⟨rfl, rfl⟩
    · rw [if_neg hl]
      exact ⟨rfl, rfl⟩
  · intro h
    simp only [doFragment]
    rw [if_neg (show bufGet b sp ≠ 'A' by rw [h]; decide),
      if_neg (show bufGet b sp ≠ 'B' by rw [h]; decide),
      if_neg (show bufGet b sp ≠ 'C' by rw [h]; decide),
      if_neg (show bufGet b sp ≠ 'D' by rw [h]; decide),
      if_neg (show bufGet b sp ≠ 'E' by rw [h]; decide),
      if_neg (show bufGet b sp ≠ 'I' by rw [h]; decide),
      if_neg (show bufGet b sp ≠ 'M' by rw [h]; decide),
      if_neg (show bufGet b sp ≠ 'N' by rw [h]; decide),
      if_neg (show bufGet b sp ≠ 'P' by rw [h]; decide),
      if_neg (show bufGet b sp ≠ 'Q' by rw [h]; decide),
      if_neg (show bufGet b sp ≠ 'S' by rw [h]; decide),
      if_neg (show bufGet b sp ≠ 'T' by rw [h]; decide),
      if_neg (show bufGet b sp ≠ 'U' by rw [h]; decide),
      if_neg (show bufGet b sp ≠ 'V' by rw [h]; decide),
      if_pos h]
    have hl : ¬(bufGet b sp = 'V' ∧ bufGet b (sp + 1) = '=') := by
      intro hc
      rw [h] at hc
      exact absurd hc.1 (by decide)
    rw [if_neg hl]
    exact ⟨rfl, rfl⟩
  · intro h hm1
    simp only [doFragment]
    rw [if_neg (show bufGet b sp ≠ 'A' by rw [h]; decide),
      if_neg (show bufGet b sp ≠ 'B' by rw [h]; decide),
      if_neg (show bufGet b sp ≠ 'C' by rw [h]; decide),
      if_neg (show bufGet b sp ≠ 'D' by rw [h]; decide),
      if_neg (show bufGet b sp ≠ 'E' by rw [h]; decide),
      if_neg (show bufGet b sp ≠ 'I' by rw [h]; decide),
      if_neg (show bufGet b sp ≠ 'M' by rw [h]; decide),
      if_neg (show bufGet b sp ≠ 'N' by rw [h]; decide),
      if_pos h]
    by_cases hl : bufGet b sp = 'P' ∧ bufGet b (sp + 1) = '='
    · rw [if_pos hl]
      rw [hm1]
      exact ⟨rfl, rfl, rfl⟩
    · rw [if_neg hl]
      exact ⟨rfl, rfl, rfl⟩
  · intro v1 p1 h hm1 hm2
    simp only [doFragment]
    rw [if_neg (show bufGet b sp ≠ 'A' by rw [h]; decide),
      if_neg (show bufGet b sp ≠ 'B' by rw [h]; decide),
      if_neg (show bufGet b sp ≠ 'C' by rw [h]; decide),
      if_neg (show bufGet b sp ≠ 'D' by rw [h]; decide),
      if_neg (show bufGet b sp ≠ 'E' by rw [h]; decide),
      if_neg (show bufGet b sp ≠ 'I' by rw [h]; decide),
      if_neg (show bufGet b sp ≠ 'M' by rw [h]; decide),
      if_neg (show bufGet b sp ≠ 'N' by rw [h]; decide),
      if_pos h]
    by_cases hl : bufGet b sp = 'P' ∧ bufGet b (sp + 1) = '='
    · rw [if_pos hl]
      rw [hm1]
      dsimp only
      rw [hm2]
      exact ⟨rfl, rfl⟩
    · rw [if_neg hl]
      exact ⟨rfl, rfl⟩
  · intro h hm1
    simp only [doFragment]
    rw [if_neg (show bufGet b sp ≠ 'A' by rw [h]; decide),
      if_neg (show bufGet b sp ≠ 'B' by rw [h]; decide),
      if_neg (show bufGet b sp ≠ 'C' by rw [h]; decide),
      if_neg (show bufGet b sp ≠ 'D' by rw [h]; decide),
      if_pos h]
    by_cases hl : bufGet b sp = 'E' ∧ bufGet b (sp + 1) = '='
    · rw [if_pos hl]
      rw [hm1]
      exact ⟨rfl, rfl, rfl, rfl⟩
    · rw [if_neg hl]
      exact ⟨rfl, rfl, rfl, rfl⟩
  · intro v1 p1 h hm1 hm2
    simp only [doFragment]
    rw [if_neg (show bufGet b sp ≠ 'A' by rw [h]; decide),
      if_neg (show bufGet b sp ≠ 'B' by rw [h]; decide),
      if_neg (show bufGet b sp ≠ 'C' by rw [h]; decide),
      if_neg (show bufGet b sp ≠ 'D' by rw [h]; decide),
      if_pos h]
    by_cases hl : bufGet b sp = 'E' ∧ bufGet b (sp + 1) = '='
    · rw [if_pos hl]
      rw [hm1]
      dsimp only
      rw [hm2]
      exact ⟨rfl, rfl, rfl⟩
    · rw [if_neg hl]
      exact ⟨rfl, rfl, rfl⟩
  · intro v1 p1 v2 p2 h hm1 hm2 hm3
    simp only [doFragment]
    rw [if_neg (show bufGet b sp ≠ 'A' by rw [h]; decide),
      if_neg (show bufGet b sp ≠ 'B' by rw [h]; decide),
      if_neg (show bufGet b sp ≠ 'C' by rw [h]; decide),
      if_neg (show bufGet b sp ≠ 'D' by rw [h]; decide),
      if_pos h]
    by_cases hl : bufGet b sp = 'E' ∧ bufGet b (sp + 1) = '='
    · rw [if_pos hl]
      rw [hm1]
      dsimp only
      rw [hm2]
      dsimp only
      rw [hm3]
      exact ⟨rfl, rfl⟩
    · rw [if_neg hl]
      exact ⟨rfl, rfl⟩
  · intro h hm1
    simp only [doFragment]
    rw [if_neg (show bufGet b sp ≠ 'A' by rw [h]; decide),
      if_neg (show bufGet b sp ≠ 'B' by rw [h]; decide),
      if_neg (show bufGet b sp ≠ 'C' by rw [h]; decide),
      if_neg (show bufGet b sp ≠ 'D' by rw [h]; decide),
      if_neg (show bufGet b sp ≠ 'E' by rw [h]; decide),
      if_neg (show bufGet b sp ≠ 'I' by rw [h]; decide),
      if_neg (show bufGet b sp ≠ 'M' by rw [h]; decide),
      if_neg (show bufGet b sp ≠ 'N' by rw [h]; decide),
      if_neg (show bufGet b sp ≠ 'P' by rw [h]; decide),
      if_pos h]
    by_cases hl : bufGet b sp = 'Q' ∧ bufGet b (sp + 1) = '='
    · rw [if_pos hl]
      rw [hm1]
      exact ⟨rfl, rfl, rfl, rfl, rfl⟩
    · rw [if_neg hl]
      exact ⟨rfl, rfl, rfl, rfl, rfl⟩
  · intro n1 q1 h hm1 hm2
    simp only [doFragment]
    rw [if_neg (show bufGet b sp ≠ 'A' by rw [h]; decide),
      if_neg (show bufGet b sp ≠ 'B' by rw [h]; decide),
      if_neg (show bufGet b sp ≠ 'C' by rw [h]; decide),
      if_neg (show bufGet b sp ≠ 'D' by rw [h]; decide),
      if_neg (show bufGet b sp ≠ 'E' by rw [h]; decide),
      if_neg (show bufGet b sp ≠ 'I' by rw [h]; decide),
      if_neg (show bufGet b sp ≠ 'M' by rw [h]; decide),
      if_neg (show bufGet b sp ≠ 'N' by rw [h]; decide),
      if_neg (show bufGet b sp ≠ 'P' by rw [h]; decide),
      if_pos h]
    by_cases hl : bufGet b sp = 'Q' ∧ bufGet b (sp + 1) = '='
    · rw [if_pos hl]
      rw [hm1]
      dsimp only
      rw [hm2]
      exact ⟨rfl, rfl, rfl, rfl⟩
    · rw [if_neg hl]
      exact ⟨rfl, rfl, rfl, rfl⟩
  · intro n1 q1 v2 p2 h hm1 hm2 hm3
    simp only [doFragment]
    rw [if_neg (show bufGet b sp ≠ 'A' by rw [h]; decide),
      if_neg (show bufGet b sp ≠ 'B' by rw [h]; decide),
      if_neg (show bufGet b sp ≠ 'C' by rw [h]; decide),
      if_neg (show bufGet b sp ≠ 'D' by rw [h]; decide),
      if_neg (show bufGet b sp ≠ 'E' by rw [h]; decide),
      if_neg (show bufGet b sp ≠ 'I' by rw [h]; decide),
      if_neg (show bufGet b sp ≠ 'M' by rw [h]; decide),
      if_neg (show bufGet b sp ≠ 'N' by rw [h]; decide),
      if_neg (show bufGet b sp ≠ 'P' by rw [h]; decide),
      if_pos h]
    by_cases hl : bufGet b sp = 'Q' ∧ bufGet b (sp + 1) = '='
    · rw [if_pos hl]
      rw [hm1]
      dsimp only
      rw [hm2]
      dsimp only
      rw [hm3]
      exact ⟨rfl, rfl, rfl⟩
    · rw [if_neg hl]
      exact ⟨rfl, rfl, rfl⟩
  · intro n1 q1 v2 p2 v3 p3 h hm1 hm2 hm3 hm4
    simp only [doFragment]
    rw [if_neg (show bufGet b sp ≠ 'A' by rw [h]; decide),
      if_neg (show bufGet b sp ≠ 'B' by rw [h]; decide),
      if_neg (show bufGet b sp ≠ 'C' by rw [h]; decide),
      if_neg (show bufGet b sp ≠ 'D' by rw [h]; decide),
      if_neg (show bufGet b sp ≠ 'E' by rw [h]; decide),
      if_neg (show bufGet b sp ≠ 'I' by rw [h]; decide),
      if_neg (show bufGet b sp ≠ 'M' by rw [h]; decide),
      if_neg (show bufGet b sp ≠ 'N' by rw [h]; decide),
      if_neg (show bufGet b sp ≠ 'P' by rw [h]; decide),
      if_pos h]
    by_cases hl : bufGet b sp = 'Q' ∧ bufGet b (sp + 1) = '='
    · rw [if_pos hl]
      rw [hm1]
      dsimp only
      rw [hm2]
      dsimp only
      rw [hm3]
      dsimp only
      rw [hm4]
      exact ⟨rfl, rfl⟩
    · rw [if_neg hl]
      exact ⟨rfl, rfl⟩
  · intro fuel b sp g c yw tp hd hq hub
    simp only [fragLoop]
    rw [hd]
    dsimp only
    rw [if_neg hq]
    rw [if_neg (show ¬(doFragment (bufSet b tp '\x00') sp g c yw).ub = true by
      rw [hub]; decide)]
  · intro g
    refine ⟨rfl, rfl, ?_, rfl⟩
    with_unfolding_all rfl

/-- Witness for `failed_parse_best_effort` at a concrete input: the
fragment `A=x`, whose `%lf` conversion fails. -/
theorem failed_parse_best_effort_witness :
    (bufGet (mkBuf "A=x") 0 = 'A' ∧ scanLf (mkBuf "A=x") 2 = none) ∧
    ((doFragment (mkBuf "A=x") 0 sess0 0 []).g.fix.altitude = sess0.fix.altitude ∧
     (doFragment (mkBuf "A=x") 0 sess0 0 []).changed = 0 ||| ALTITUDE_SET) :=
  ⟨⟨by decide, by decide⟩,
   (failed_parse_best_effort.1 (mkBuf "A=x") 0 sess0 0 []).2.1 (by decide) (by decide)⟩


/-- C6 (code bug): processing a device-identifier fragment stores the new
identifier string, but — because the source's `case 'I':` has no `break`
and falls through into `case 'M':` — it also overwrites the fix mode with
`atoi` of the identifier text (0 for a non-numeric identifier) and sets the
mode change bit, for every prior session state. -/
theorem identifier_falls_through_to_mode (g : GpsData) :
    (gps_unpack (mkBuf "GPSD,I=SiRF\x0d") g).g.gps_id = some (mkBuf "SiRF") ∧
    (gps_unpack (mkBuf "GPSD,I=SiRF\x0d") g).g.fix.mode = 0 ∧
    (gps_unpack (mkBuf "GPSD,I=SiRF\x0d") g).changed = MODE_SET := by
  exact ⟨rfl, rfl, rfl⟩

/-- C9 (code bug): a satellite-table sentence whose count field (13)
exceeds `MAXCHANNELS` (12) drives the per-satellite loops to write the
fixed-size local arrays at index 12 — one past the last valid index — as
recorded by the ghost write trace; nothing in the source bounds the count
against the maximum channel count. -/
theorem satellite_count_overflow :
    (gps_unpack (mkBuf "GPSD,Y=13:::::::::::::\x0d") sess0).g.satellites = 13 ∧
    12 ∈ (gps_unpack (mkBuf "GPSD,Y=13:::::::::::::\x0d") sess0).ywrites ∧
    ¬ 12 < MAXCHANNELS := by
  decide

/-- C3 counterexample: calling unpack twice in a row with buffers holding
the identical text `GPSD,A=1\r` — where the second call changes no field's
value (the session state is unchanged by it) — still returns a non-empty
mask on the second call: the altitude bit is set simply because the tag was
seen. -/
theorem second_call_mask_counterexample :
    (gps_unpack (mkBuf "GPSD,A=1\x0d")
        (gps_unpack (mkBuf "GPSD,A=1\x0d") sess0).g).g
      = (gps_unpack (mkBuf "GPSD,A=1\x0d") sess0).g ∧
    (gps_unpack (mkBuf "GPSD,A=1\x0d")
        (gps_unpack (mkBuf "GPSD,A=1\x0d") sess0).g).changed = ALTITUDE_SET ∧
    ALTITUDE_SET ≠ 0 := by
  refine ⟨rfl, rfl, by decide⟩

/-- C5 counterexample: with a raw hook registered, the buffer the hook
receives is not the input bytes as they were passed in: the sentence
delimiter (the final CR) has been overwritten with a NUL by the in-place
parse before the hook runs. -/
theorem hook_buffer_counterexample :
    (gps_unpack (mkBuf "GPSD,A=1\x0d") sessHook).hookArg
        ≠ some (mkBuf "GPSD,A=1\x0d") ∧
    (gps_unpack (mkBuf "GPSD,A=1\x0d") sessHook).hookArg
        = some ((gps_unpack (mkBuf "GPSD,A=1\x0d") sessHook).buf) := by
  decide

/- ## The change mask is a function of the buffer alone -/

theorem doFragment_indep (b : List Char) (sp : Nat) (g g' : GpsData) (c : Nat)
    (yw : List Nat) :
    (doFragment b sp g c yw).changed = (doFragment b sp g' c yw).changed ∧
    (doFragment b sp g c yw).yw = (doFragment b sp g' c yw).yw ∧
    (doFragment b sp g c yw).ub = (doFragment b sp g' c yw).ub := by
  simp only [doFragment]
  by_cases hA : bufGet b sp = 'A'
  · rw [if_pos hA, if_pos hA]
    exact ⟨(rfl : c ||| ALTITUDE_SET = c ||| ALTITUDE_SET),
      (rfl : yw = yw), (rfl : false = (false : Bool))⟩
  rw [if_neg hA, if_neg hA]
  by_cases hB : bufGet b sp = 'B'
  · rw [if_pos hB, if_pos hB]
    exact ⟨(rfl : c = c),
      (rfl : yw = yw), (rfl : false = (false : Bool))⟩
  rw [if_neg hB, if_neg hB]
  by_cases hC : bufGet b sp = 'C'
  · rw [if_pos hC, if_pos hC]
    exact ⟨(rfl : c = c),
      (rfl : yw = yw), (rfl : false = (false : Bool))⟩
  rw [if_neg hC, if_neg hC]
  by_cases hD : bufGet b sp = 'D'
  · rw [if_pos hD, if_pos hD]
    exact ⟨(rfl : c = c),
      (rfl : yw = yw), (rfl : false = (false : Bool))⟩
  rw [if_neg hD, if_neg hD]
  by_cases hE : bufGet b sp = 'E'
  · rw [if_pos hE, if_pos hE]
    exact ⟨(rfl : c ||| POSERR_SET = c ||| POSERR_SET),
      (rfl : yw = yw), (rfl : false = (false : Bool))⟩
  rw [if_neg hE, if_neg hE]
  by_cases hI : bufGet b sp = 'I'
  · rw [if_pos hI, if_pos hI]
    exact ⟨(rfl : c ||| MODE_SET = c ||| MODE_SET),
      (rfl : yw = yw), (rfl : false = (false : Bool))⟩
  rw [if_neg hI, if_neg hI]
  by_cases hM : bufGet b sp = 'M'
  · rw [if_pos hM, if_pos hM]
    exact ⟨(rfl : c ||| MODE_SET = c ||| MODE_SET),
      (rfl : yw = yw), (rfl : false = (false : Bool))⟩
  rw [if_neg hM, if_neg hM]
  by_cases hN : bufGet b sp = 'N'
  · rw [if_pos hN, if_pos hN]
    exact ⟨(rfl : c = c),
      (rfl : yw = yw), (rfl : false = (false : Bool))⟩
  rw [if_neg hN, if_neg hN]
  by_cases hP : bufGet b sp = 'P'
  · rw [if_pos hP, if_pos hP]
    exact ⟨(rfl : c ||| LATLON_SET = c ||| LATLON_SET),
      (rfl : yw = yw), (rfl : false = (false : Bool))⟩
  rw [if_neg hP, if_neg hP]
  by_cases hQ : bufGet b sp = 'Q'
  · rw [if_pos hQ, if_pos hQ]
    exact ⟨(rfl : c ||| DOP_SET = c ||| DOP_SET),
      (rfl : yw = yw), (rfl : false = (false : Bool))⟩
  rw [if_neg hQ, if_neg hQ]
  by_cases hS : bufGet b sp = 'S'
  · rw [if_pos hS, if_pos hS]
    exact ⟨(rfl : c ||| STATUS_SET = c ||| STATUS_SET),
      (rfl : yw = yw), (rfl : false = (false : Bool))⟩
  rw [if_neg hS, if_neg hS]
  by_cases hT : bufGet b sp = 'T'
  · rw [if_pos hT, if_pos hT]
    exact ⟨(rfl : c ||| TRACK_SET = c ||| TRACK_SET),
      (rfl : yw = yw), (rfl : false = (false : Bool))⟩
  rw [if_neg hT, if_neg hT]
  by_cases hU : bufGet b sp = 'U'
  · rw [if_pos hU, if_pos hU]
    exact ⟨(rfl : c ||| CLIMB_SET = c ||| CLIMB_SET),
      (rfl : yw = yw), (rfl : false = (false : Bool))⟩
  rw [if_neg hU, if_neg hU]
  by_cases hV : bufGet b sp = 'V'
  · rw [if_pos hV, if_pos hV]
    exact ⟨(rfl : c ||| SPEED_SET = c ||| SPEED_SET),
      (rfl : yw = yw), (rfl : false = (false : Bool))⟩
  rw [if_neg hV, if_neg hV]
  by_cases hX : bufGet b sp = 'X'
  · rw [if_pos hX, if_pos hX]
    exact ⟨(rfl : c ||| ONLINE_SET = c ||| ONLINE_SET),
      (rfl : yw = yw), (rfl : false = (false : Bool))⟩
  rw [if_neg hX, if_neg hX]
  by_cases hY : bufGet b sp = 'Y'
  · rw [if_pos hY, if_pos hY]
    by_cases hs : atoiFrom b (sp + 2) ≠ 0
    · rw [if_pos hs, if_pos hs]
      by_cases hu : (yLoop b (atoiFrom b (sp + 2)).toNat 0 (yInit sp)).ub = true
      · rw [if_pos hu, if_pos hu]
        exact ⟨(rfl : c = c),
          (rfl : (yw ++ List.range (atoiFrom b (sp + 2)).toNat) ++ (yLoop b (atoiFrom b (sp + 2)).toNat 0 (yInit sp)).writes = (yw ++ List.range (atoiFrom b (sp + 2)).toNat) ++ (yLoop b (atoiFrom b (sp + 2)).toNat 0 (yInit sp)).writes), (rfl : true = (true : Bool))⟩
      · rw [if_neg hu, if_neg hu]
        exact ⟨(rfl : c ||| SATELLITE_SET = c ||| SATELLITE_SET),
          (rfl : (yw ++ List.range (atoiFrom b (sp + 2)).toNat) ++ (yLoop b (atoiFrom b (sp + 2)).toNat 0 (yInit sp)).writes = (yw ++ List.range (atoiFrom b (sp + 2)).toNat) ++ (yLoop b (atoiFrom b (sp + 2)).toNat 0 (yInit sp)).writes), (rfl : false = (false : Bool))⟩
    · rw [if_neg hs, if_neg hs]
      exact ⟨(rfl : c ||| SATELLITE_SET = c ||| SATELLITE_SET),
        (rfl : yw = yw), (rfl : false = (false : Bool))⟩
  rw [if_neg hY, if_neg hY]
  by_cases hZ : bufGet b sp = 'Z'
  · rw [if_pos hZ, if_pos hZ]
    exact ⟨(rfl : c = c),
      (rfl : yw = yw), (rfl : false = (false : Bool))⟩
  rw [if_neg hZ, if_neg hZ]
  by_cases hDol : bufGet b sp = '$'
  · rw [if_pos hDol, if_pos hDol]
    exact ⟨(rfl : c = c),
      (rfl : yw = yw), (rfl : false = (false : Bool))⟩
  rw [if_neg hDol, if_neg hDol]
  exact ⟨(rfl : c = c),
    (rfl : yw = yw), (rfl : false = (false : Bool))⟩

theorem fragLoop_indep : ∀ (fuel : Nat) (b : List Char) (sp : Nat)
    (g g' : GpsData) (c : Nat) (yw : List Nat),
    (fragLoop fuel b sp g c yw).buf = (fragLoop fuel b sp g' c yw).buf ∧
    (fragLoop fuel b sp g c yw).changed = (fragLoop fuel b sp g' c yw).changed ∧
    (fragLoop fuel b sp g c yw).yw = (fragLoop fuel b sp g' c yw).yw ∧
    (fragLoop fuel b sp g c yw).ub = (fragLoop fuel b sp g' c yw).ub := by
  intro fuel
  induction fuel with
  | zero => intro b sp g g' c yw; exact ⟨rfl, rfl, rfl, rfl⟩
  | succ f ih =>
    intro b sp g g' c yw
    simp only [fragLoop]
    rcases htp : findDelim b sp with _ | tp
    · exact ⟨rfl, rfl, rfl, rfl⟩
    · by_cases hq : bufGet (bufSet b tp '\x00') (sp + 2) = '?'
      · simp only [if_pos hq]
        exact ih _ _ g g' c yw
      · simp only [if_neg hq]
        obtain ⟨d1, d2, d3⟩ := doFragment_indep (bufSet b tp '\x00') sp g g' c yw
        rw [← d3]
        by_cases hub : (doFragment (bufSet b tp '\x00') sp g c yw).ub = true
        · rw [if_pos hub, if_pos hub]
          exact ⟨(rfl : bufSet b tp '\x00' = bufSet b tp '\x00'), d1, d2,
            (rfl : (true : Bool) = true)⟩
        · rw [if_neg hub, if_neg hub]
          rw [d1, d2]
          exact ih _ _ _ _ _ _

theorem sentenceLoop_indep : ∀ (fuel : Nat) (b : List Char) (ns? : Option Nat)
    (g g' : GpsData) (c : Nat) (yw : List Nat),
    (sentenceLoop fuel b ns? g c yw).buf = (sentenceLoop fuel b ns? g' c yw).buf ∧
    (sentenceLoop fuel b ns? g c yw).changed
        = (sentenceLoop fuel b ns? g' c yw).changed ∧
    (sentenceLoop fuel b ns? g c yw).yw = (sentenceLoop fuel b ns? g' c yw).yw ∧
    (sentenceLoop fuel b ns? g c yw).ub = (sentenceLoop fuel b ns? g' c yw).ub := by
  intro fuel
  induction fuel with
  | zero => intro b ns? g g' c yw; exact ⟨rfl, rfl, rfl, rfl⟩
  | succ f ih =>
    intro b ns? g g' c yw
    simp only [sentenceLoop]
    rcases ns? with _ | ns
    · exact ⟨rfl, rfl, rfl, rfl⟩
    · by_cases hm : isGPSDAt b ns = true
      · simp only [if_pos hm]
        obtain ⟨f1, f2, f3, f4⟩ := fragLoop_indep (b.length + 1) b (ns + 5) g g' c yw
        rw [← f4]
        by_cases hub : (fragLoop (b.length + 1) b (ns + 5) g c yw).ub = true
        · simp only [if_pos hub]
          exact ⟨f1, f2, f3, f4⟩
        · simp only [if_neg hub]
          rw [f1, f2, f3]
          exact ih _ _ _ _ _ _
      · simp only [if_neg hm]
        exact ih _ _ _ _ _ _

/-- C3 (amended): the change mask returned by `gps_unpack` is a function of
the input buffer alone — it is computed fresh each call (starting from 0),
never accumulates anything from previous calls, and does not depend on the
session state.  In particular a second call on identical buffer contents
returns the same mask as the first; but that mask is not empty when fields
are merely re-set to equal values, since bits are set per recognized tag
regardless of whether the value changed. -/
theorem unpack_mask_depends_only_on_buffer (buf : List Char) (g g' : GpsData) :
    (gps_unpack buf g).changed = (gps_unpack buf g').changed := by
  simp only [gps_unpack]
  exact (sentenceLoop_indep (buf.length + 1) buf (some 0) g g' 0 []).2.1

/- ## The buffer mutation performed by an unpack call -/

theorem strchrFrom_found (b : List Char) (c : Char) :
    ∀ (f i t : Nat), strchrFrom b c f i = some t → bufGet b t = c := by
  intro f
  induction f with
  | zero => intro i t h; cases h
  | succ f ih =>
    intro i t h
    simp only [strchrFrom] at h
    split_ifs at h with h1 h2
    all_goals first
      | (cases h; exact h2)
      | cases h
      | exact ih (i + 1) t h

theorem bufGet_set_ne (b : List Char) :
    ∀ (t i : Nat) (x : Char), i ≠ t → bufGet (bufSet b t x) i = bufGet b i := by
  induction b with
  | nil => intro t i x _; rfl
  | cons a b ih =>
    intro t i x h
    cases t with
    | zero =>
      cases i with
      | zero => exact absurd rfl h
      | succ i => rfl
    | succ t =>
      cases i with
      | zero => rfl
      | succ i => exact ih t i x (fun he => h (by rw [he]))

theorem bufGet_set_self (b : List Char) :
    ∀ (t : Nat) (x : Char), t < b.length → bufGet (bufSet b t x) t = x := by
  induction b with
  | nil => intro t x h; cases h
  | cons a b ih =>
    intro t x h
    cases t with
    | zero => rfl
    | succ t => exact ih t x (Nat.lt_of_succ_lt_succ h)

theorem bufGet_ne_nul_lt (b : List Char) :
    ∀ (i : Nat), bufGet b i ≠ '\x00' → i < b.length := by
  induction b with
  | nil => intro i h; exact absurd rfl h
  | cons a b ih =>
    intro i h
    cases i with
    | zero => exact Nat.succ_pos _
    | succ i => exact Nat.succ_lt_succ (ih i h)

/-- Relation between the buffer as passed to `gps_unpack` and the buffer
after the in-place parse: same length, and every byte is either untouched
or was a delimiter (`,` or CR) that has been overwritten with NUL. -/
def DelimNulled (orig cur : List Char) : Prop :=
  cur.length = orig.length ∧
  ∀ i : Nat, bufGet cur i = bufGet orig i ∨
    ((bufGet orig i = ',' ∨ bufGet orig i = '\x0d') ∧ bufGet cur i = '\x00')

theorem DelimNulled_refl (b : List Char) : DelimNulled b b :=
  ⟨rfl, fun _ => Or.inl rfl⟩

theorem DelimNulled_trans {a b c : List Char}
    (h1 : DelimNulled a b) (h2 : DelimNulled b c) : DelimNulled a c := by
  obtain ⟨hl1, h1⟩ := h1
  obtain ⟨hl2, h2⟩ := h2
  refine ⟨hl2.trans hl1, fun i => ?_⟩
  rcases h2 i with h | ⟨hd, hn⟩
  · rw [h]
    exact h1 i
  · rcases h1 i with h1i | ⟨hd1, hn1⟩
    · rw [h1i] at hd
      exact Or.inr ⟨hd, hn⟩
    · rw [hn1] at hd
      rcases hd with h | h <;> exact absurd h (by decide)

theorem DelimNulled_set {b : List Char} {tp : Nat}
    (hd : bufGet b tp = ',' ∨ bufGet b tp = '\x0d') :
    DelimNulled b (bufSet b tp '\x00') := by
  refine ⟨List.length_set b tp '\x00', fun i => ?_⟩
  by_cases hi : i = tp
  · subst hi
    right
    refine ⟨hd, ?_⟩
    have hlt : i < b.length := by
      apply bufGet_ne_nul_lt
      rcases hd with h | h <;> rw [h] <;> decide
    exact bufGet_set_self b i '\x00' hlt
  · left
    exact bufGet_set_ne b tp i '\x00' hi

theorem findDelim_found {b : List Char} {sp tp : Nat}
    (h : findDelim b sp = some tp) :
    bufGet b tp = ',' ∨ bufGet b tp = '\x0d' := by
  unfold findDelim at h
  rcases h1 : strchrFrom b ',' (b.length + 1) sp with _ | t1
  · rw [h1] at h
    exact Or.inr (strchrFrom_found b '\x0d' (b.length + 1) sp tp h)
  · rw [h1, Option.some_inj] at h
    rw [← h]
    exact Or.inl (strchrFrom_found b ',' (b.length + 1) sp t1 h1)

theorem fragLoop_mut : ∀ (fuel : Nat) (b : List Char) (sp : Nat) (g : GpsData)
    (c : Nat) (yw : List Nat), DelimNulled b (fragLoop fuel b sp g c yw).buf := by
  intro fuel
  induction fuel with
  | zero => intro b sp g c yw; exact DelimNulled_refl b
  | succ f ih =>
    intro b sp g c yw
    simp only [fragLoop]
    rcases htp : findDelim b sp with _ | tp
    · exact DelimNulled_refl b
    · have hstep : DelimNulled b (bufSet b tp '\x00') :=
        DelimNulled_set (findDelim_found htp)
      by_cases hq : bufGet (bufSet b tp '\x00') (sp + 2) = '?'
      · simp only [if_pos hq]
        exact DelimNulled_trans hstep (ih _ _ _ _ _)
      · simp only [if_neg hq]
        by_cases hub : (doFragment (bufSet b tp '\x00') sp g c yw).ub = true
        · simp only [if_pos hub]
          exact hstep
        · simp only [if_neg hub]
          exact DelimNulled_trans hstep (ih _ _ _ _ _)

theorem sentenceLoop_mut : ∀ (fuel : Nat) (b : List Char) (ns? : Option Nat)
    (g : GpsData) (c : Nat) (yw : List Nat),
    DelimNulled b (sentenceLoop fuel b ns? g c yw).buf := by
  intro fuel
  induction fuel with
  | zero => intro b ns? g c yw; exact DelimNulled_refl b
  | succ f ih =>
    intro b ns? g c yw
    simp only [sentenceLoop]
    rcases ns? with _ | ns
    · exact DelimNulled_refl b
    · by_cases hm : isGPSDAt b ns = true
      · simp only [if_pos hm]
        have hf := fragLoop_mut (b.length + 1) b (ns + 5) g c yw
        by_cases hub : (fragLoop (b.length + 1) b (ns + 5) g c yw).ub = true
        · simp only [if_pos hub]
          exact hf
        · simp only [if_neg hub]
          exact DelimNulled_trans hf (ih _ _ _ _ _)
      · simp only [if_neg hm]
        exact ih _ _ _ _ _

/- ## The parse never touches the raw-hook registration -/

theorem doFragment_hook (b : List Char) (sp : Nat) (g : GpsData) (c : Nat)
    (yw : List Nat) : (doFragment b sp g c yw).g.raw_hook = g.raw_hook := by
  simp only [doFragment]
  by_cases hA : bufGet b sp = 'A'
  · rw [if_pos hA]
    by_cases hlA : bufGet b sp = 'A' ∧ bufGet b (sp + 1) = '='
    · rw [if_pos hlA]
      rcases hmA1 : scanLf b (sp + 2) with _ | ⟨v1, p1⟩
      · rfl
      dsimp only
    · rw [if_neg hlA]
      try rfl
  rw [if_neg hA]
  by_cases hB : bufGet b sp = 'B'
  · rw [if_pos hB]
    by_cases hlB : bufGet b sp = 'B' ∧ bufGet b (sp + 1) = '='
    · rw [if_pos hlB]
      rcases hmB1 : scanInt b (sp + 2) with _ | ⟨v1, p1⟩
      · rfl
      dsimp only
      rcases hmB2 : scanInt b p1 with _ | ⟨v2, p2⟩
      · rfl
      dsimp only
      rcases hmB3 : scanWord b p2 with _ | ⟨v3, p3⟩
      · rfl
      dsimp only
      rcases hmB4 : scanInt b p3 with _ | ⟨v4, p4⟩
      · rfl
      dsimp only
    · rw [if_neg hlB]
      try rfl
  rw [if_neg hB]
  by_cases hC : bufGet b sp = 'C'
  · rw [if_pos hC]
    by_cases hlC : bufGet b sp = 'C' ∧ bufGet b (sp + 1) = '='
    · rw [if_pos hlC]
      rcases hmC1 : scanInt b (sp + 2) with _ | ⟨v1, p1⟩
      · rfl
      dsimp only
    · rw [if_neg hlC]
      try rfl
  rw [if_neg hC]
  by_cases hD : bufGet b sp = 'D'
  · rw [if_pos hD]
    try rfl
  rw [if_neg hD]
  by_cases hE : bufGet b sp = 'E'
  · rw [if_pos hE]
    by_cases hlE : bufGet b sp = 'E' ∧ bufGet b (sp + 1) = '='
    · rw [if_pos hlE]
      rcases hmE1 : scanLf b (sp + 2) with _ | ⟨v1, p1⟩
      · rfl
      dsimp only
      rcases hmE2 : scanLf b p1 with _ | ⟨v2, p2⟩
      · rfl
      dsimp only
      rcases hmE3 : scanLf b p2 with _ | ⟨v3, p3⟩
      · rfl
      dsimp only
    · rw [if_neg hlE]
      try rfl
  rw [if_neg hE]
  by_cases hI : bufGet b sp = 'I'
  · rw [if_pos hI]
    try rfl
  rw [if_neg hI]
  by_cases hM : bufGet b sp = 'M'
  · rw [if_pos hM]
    try rfl
  rw [if_neg hM]
  by_cases hN : bufGet b sp = 'N'
  · rw [if_pos hN]
    try rfl
  rw [if_neg hN]
  by_cases hP : bufGet b sp = 'P'
  · rw [if_pos hP]
    by_cases hlP : bufGet b sp = 'P' ∧ bufGet b (sp + 1) = '='
    · rw [if_pos hlP]
      rcases hmP1 : scanLf b (sp + 2) with _ | ⟨v1, p1⟩
      · rfl
      dsimp only
      rcases hmP2 : scanLf b p1 with _ | ⟨v2, p2⟩
      · rfl
      dsimp only
    · rw [if_neg hlP]
      try rfl
  rw [if_neg hP]
  by_cases hQ : bufGet b sp = 'Q'
  · rw [if_pos hQ]
    by_cases hlQ : bufGet b sp = 'Q' ∧ bufGet b (sp + 1) = '='
    · rw [if_pos hlQ]
      rcases hmQ1 : scanInt b (sp + 2) with _ | ⟨v1, p1⟩
      · rfl
      dsimp only
      rcases hmQ2 : scanLf b p1 with _ | ⟨v2, p2⟩
      · rfl
      dsimp only
      rcases hmQ3 : scanLf b p2 with _ | ⟨v3, p3⟩
      · rfl
      dsimp only
      rcases hmQ4 : scanLf b p3 with _ | ⟨v4, p4⟩
      · rfl
      dsimp only
    · rw [if_neg hlQ]
      try rfl
  rw [if_neg hQ]
  by_cases hS : bufGet b sp = 'S'
  · rw [if_pos hS]
    try rfl
  rw [if_neg hS]
  by_cases hT : bufGet b sp = 'T'
  · rw [if_pos hT]
    by_cases hlT : bufGet b sp = 'T' ∧ bufGet b (sp + 1) = '='
    · rw [if_pos hlT]
      rcases hmT1 : scanLf b (sp + 2) with _ | ⟨v1, p1⟩
      · rfl
      dsimp only
    · rw [if_neg hlT]
      try rfl
  rw [if_neg hT]
  by_cases hU : bufGet b sp = 'U'
  · rw [if_pos hU]
    by_cases hlU : bufGet b sp = 'U' ∧ bufGet b (sp + 1) = '='
    · rw [if_pos hlU]
      rcases hmU1 : scanLf b (sp + 2) with _ | ⟨v1, p1⟩
      · rfl
      dsimp only
    · rw [if_neg hlU]
      try rfl
  rw [if_neg hU]
  by_cases hV : bufGet b sp = 'V'
  · rw [if_pos hV]
    by_cases hlV : bufGet b sp = 'V' ∧ bufGet b (sp + 1) = '='
    · rw [if_pos hlV]
      rcases hmV1 : scanLf b (sp + 2) with _ | ⟨v1, p1⟩
      · rfl
      dsimp only
    · rw [if_neg hlV]
      try rfl
  rw [if_neg hV]
  by_cases hX : bufGet b sp = 'X'
  · rw [if_pos hX]
    by_cases hlX : bufGet b sp = 'V' ∧ bufGet b (sp + 1) = '='
    · rw [if_pos hlX]
      rcases hmX1 : scanLf b (sp + 2) with _ | ⟨v1, p1⟩
      · rfl
      dsimp only
    · rw [if_neg hlX]
      try rfl
  rw [if_neg hX]
  by_cases hY : bufGet b sp = 'Y'
  · rw [if_pos hY]
    by_cases hs : atoiFrom b (sp + 2) ≠ 0
    · rw [if_pos hs]
      by_cases hu : (yLoop b (atoiFrom b (sp + 2)).toNat 0 (yInit sp)).ub = true
      · rw [if_pos hu]
        try rfl
      · rw [if_neg hu]
        try rfl
    · rw [if_neg hs]
      try rfl
  rw [if_neg hY]
  by_cases hZ : bufGet b sp = 'Z'
  · rw [if_pos hZ]
    by_cases hlZ : bufGet b sp = 'Z' ∧ bufGet b (sp + 1) = '='
    · rw [if_pos hlZ]
      rcases hmZ1 : scanInt b (sp + 2) with _ | ⟨v1, p1⟩
      · rfl
      dsimp only
    · rw [if_neg hlZ]
      try rfl
  rw [if_neg hZ]
  by_cases hDol : bufGet b sp = '$'
  · rw [if_pos hDol]
    by_cases hlDol : bufGet b sp = '$' ∧ bufGet b (sp + 1) = '='
    · rw [if_pos hlDol]
      rcases hmDol1 : scanWord b (sp + 2) with _ | ⟨v1, p1⟩
      · rfl
      dsimp only
      rcases hmDol2 : scanInt b p1 with _ | ⟨v2, p2⟩
      · rfl
      dsimp only
      rcases hmDol3 : scanLf b p2 with _ | ⟨v3, p3⟩
      · rfl
      dsimp only
      rcases hmDol4 : scanLf b p3 with _ | ⟨v4, p4⟩
      · rfl
      dsimp only
      rcases hmDol5 : scanLf b p4 with _ | ⟨v5, p5⟩
      · rfl
      dsimp only
      rcases hmDol6 : scanLf b p5 with _ | ⟨v6, p6⟩
      · rfl
      dsimp only
      rcases hmDol7 : scanLf b p6 with _ | ⟨v7, p7⟩
      · rfl
      dsimp only
      rcases hmDol8 : scanLf b p7 with _ | ⟨v8, p8⟩
      · rfl
      dsimp only
    · rw [if_neg hlDol]
      try rfl
  rw [if_neg hDol]
  try rfl

theorem fragLoop_hook : ∀ (fuel : Nat) (b : List Char) (sp : Nat) (g : GpsData)
    (c : Nat) (yw : List Nat),
    (fragLoop fuel b sp g c yw).g.raw_hook = g.raw_hook := by
  intro fuel
  induction fuel with
  | zero => intro b sp g c yw; rfl
  | succ f ih =>
    intro b sp g c yw
    simp only [fragLoop]
    rcases htp : findDelim b sp with _ | tp
    · rfl
    · by_cases hq : bufGet (bufSet b tp '\x00') (sp + 2) = '?'
      · simp only [if_pos hq]
        exact ih _ _ _ _ _
      · simp only [if_neg hq]
        by_cases hub : (doFragment (bufSet b tp '\x00') sp g c yw).ub = true
        · simp only [if_pos hub]
          exact doFragment_hook _ _ _ _ _
        · simp only [if_neg hub]
          rw [ih]
          exact doFragment_hook _ _ _ _ _

theorem sentenceLoop_hook : ∀ (fuel : Nat) (b : List Char) (ns? : Option Nat)
    (g : GpsData) (c : Nat) (yw : List Nat),
    (sentenceLoop fuel b ns? g c yw).g.raw_hook = g.raw_hook := by
  intro fuel
  induction fuel with
  | zero => intro b ns? g c yw; rfl
  | succ f ih =>
    intro b ns? g c yw
    simp only [sentenceLoop]
    rcases ns? with _ | ns
    · rfl
    · by_cases hm : isGPSDAt b ns = true
      · simp only [if_pos hm]
        by_cases hub : (fragLoop (b.length + 1) b (ns + 5) g c yw).ub = true
        · simp only [if_pos hub]
          exact fragLoop_hook _ _ _ _ _ _
        · simp only [if_neg hub]
          rw [ih]
          exact fragLoop_hook _ _ _ _ _ _
      · simp only [if_neg hm]
        exact ih _ _ _ _ _

/-- C5 (amended): on every unpack call on a session with a registered
raw-data callback — provided the call does not run into the satellite-table
undefined behaviour — the callback is invoked exactly once, after all
sentences are processed, and receives the buffer as mutated in place by the
parse: the same bytes that were passed in except that each processed
sentence delimiter (`,` or CR) has been overwritten with NUL. -/
theorem unpack_hook_mutated_buffer (buf : List Char) (g : GpsData)
    (hreg : g.raw_hook = true) (hub : (gps_unpack buf g).ub = false) :
    (gps_unpack buf g).hookArg = some ((gps_unpack buf g).buf) ∧
    DelimNulled buf ((gps_unpack buf g).buf) := by
  have hh : (sentenceLoop (buf.length + 1) buf (some 0) g 0 []).g.raw_hook = true := by
    rw [sentenceLoop_hook]
    exact hreg
  have hub2 : (sentenceLoop (buf.length + 1) buf (some 0) g 0 []).ub = false := hub
  constructor
  · simp only [gps_unpack]
    rw [if_neg (by simp [hub2]), if_pos hh]
  · exact sentenceLoop_mut (buf.length + 1) buf (some 0) g 0 []

/-- Witness for `unpack_hook_mutated_buffer` at a concrete input. -/
theorem unpack_hook_witness :
    (sessHook.raw_hook = true ∧
     (gps_unpack (mkBuf "GPSD,A=1\x0d") sessHook).ub = false) ∧
    ((gps_unpack (mkBuf "GPSD,A=1\x0d") sessHook).hookArg
        = some ((gps_unpack (mkBuf "GPSD,A=1\x0d") sessHook).buf) ∧
     DelimNulled (mkBuf "GPSD,A=1\x0d")
        ((gps_unpack (mkBuf "GPSD,A=1\x0d") sessHook).buf)) :=
  ⟨⟨rfl, by decide⟩,
   unpack_hook_mutated_buffer (mkBuf "GPSD,A=1\x0d") sessHook rfl (by decide)⟩
